import Mathlib

/-!
# Verification of the OraSRS staking / threat-intelligence contract

Shallow embedding of the Go contract `orasrscontract` (files:
`OrasrsStakingContract` staking part and the threat-intelligence part).
The host key-value store is modelled as a structured record whose fields
correspond to the disjoint key prefixes of the contract's keyspace
(`NODE_`, `NODEID_TO_ADDR_`, `CONSENSUS_NODES`, `PARTITION_NODES`,
`EDGE_NODES`, `PENDING_WITHDRAWAL_`, `USED_NONCE_`, `OWNER_`,
`GOVERNANCE_`, `CONTRACT_STATE_`, `VALIDATOR_`, `THREAT_ATTESTATION_`,
`GLOBAL_THREAT_LIST_`, `THREAT_VERIFICATION_`, `THREAT_DUPLICATE_`);
the prefixes are pairwise non-overlapping, so this split is an
isomorphic view of the flat byte-keyed store.  `Get` on a missing key
returns an SDK error in Go; here a missing key is `none` / an absent
association-list entry.  Values the contract stores via `json.Marshal`
of its own structs are kept structurally (Go's encoding/json
round-trips these structs).

Per the host semantics (ChainMaker: a transaction whose contract
invocation returns an error is aborted and all of its writes and events
are discarded), a handler is a function to `Except String InvokeOut`;
an `.error` result means the invocation leaves the durable state
unchanged.

Machine integers: Go `uint64` fields are `Nat` with explicit `% 2^64`
where the source can overflow (`+= 5`, `++`, `*`, `-`); `int64` is
`Int` with explicit wrapping where the source can overflow.
Strings `len` is modelled by `String.utf8ByteSize` (Go `len` counts
UTF-8 bytes).  Error texts produced by the host SDK or by `strconv`
(which the source interpolates with `%v`) are abstracted by fixed
placeholder strings; every error text written literally in the source
is reproduced verbatim.
-/

/-- NodeStatus enumeration from the source (iota order). -/
inductive NodeStatus
  | Unregistered
  | Registered
  | Active
  | Slashed
  | PendingRemoval
  | ThreatDetected
  | Verified
deriving DecidableEq, Repr

/-- Ordinal of a status, as Go prints the named int type with `%v`. -/
def NodeStatus.toNat : NodeStatus → Nat
  | .Unregistered => 0
  | .Registered => 1
  | .Active => 2
  | .Slashed => 3
  | .PendingRemoval => 4
  | .ThreatDetected => 5
  | .Verified => 6

/-- ThreatLevel enumeration from the source (iota order). -/
inductive ThreatLevel
  | Info
  | Warning
  | Critical
  | Emergency
deriving DecidableEq, Repr

def ThreatLevel.toNat : ThreatLevel → Nat
  | .Info => 0
  | .Warning => 1
  | .Critical => 2
  | .Emergency => 3

/-- Node struct from the source, field for field. -/
structure Node where
  NodeAddress : String
  StakeAmount : Nat
  StakeStart : Int
  ReputationScore : Nat
  Status : NodeStatus
  NodeId : String
  BusinessLicense : String
  FilingNumber : String
  ChallengeCount : Nat
  ChallengesWon : Nat
  ChallengesLost : Nat
  LastSeen : Int
  IsConsensusNode : Bool
  IsThreatSensor : Bool
  AgentVersion : String
  DeploymentType : String
  LastThreatReport : Int
  ThreatScore : Nat
  VerifiedThreats : Nat
  ComplianceZone : String
deriving DecidableEq, Repr

/-- ThreatAttestation struct from the source, field for field. -/
structure ThreatAttestation where
  ID : String
  Timestamp : Int
  SourceIP : String
  TargetIP : String
  ThreatType : String
  ThreatLevel : ThreatLevel
  Context : String
  AgentID : String
  Signature : String
  EvidenceHash : String
  Geolocation : String
  NetworkFlow : String
deriving DecidableEq, Repr

/-- One entry of the global threat list (`map[string]interface{}` in the
source, with keys ip / level / first_seen / last_seen / report_count,
and last_updated added by the in-place level raise). -/
structure ThreatEntry where
  ip : String
  level : Nat
  first_seen : Int
  last_seen : Int
  report_count : Nat
  last_updated : Option Int
deriving DecidableEq, Repr

/-- The per-(report, verifier) verification record written by
`verifyThreatReport`. -/
structure VerifStamp where
  verifier : String
  verified : Bool
  timestamp : Int
  report_id : String
deriving DecidableEq, Repr

/-- The contract's durable state: the host key-value store split by the
pairwise non-overlapping key prefixes of the source's keyspace. -/
structure ChainState where
  contractState : Option String
  owner : Option String
  governance : Option String
  nodes : List (String × Node)
  idToAddr : List (String × String)
  consensus : Option (List String)
  partition : Option (List String)
  edge : Option (List String)
  pendingWithdrawal : List (String × String)
  usedNonces : List (String × String)
  validators : List (String × String)
  attestations : List (String × ThreatAttestation)
  verifStamps : List (String × VerifStamp)
  dupKeys : List (String × String)
  globalThreatList : Option (List ThreatEntry)
deriving DecidableEq, Repr

/-- An emitted event: name plus ordered string fields. -/
structure ChainEvent where
  name : String
  data : List String
deriving DecidableEq, Repr

/-- Invocation context supplied by the host: `c.Caller`,
`c.TxTimeStamp` and the string-keyed argument map `c.Args`. -/
structure Ctx where
  caller : String
  txTimeStamp : Int
  args : List (String × String)
deriving DecidableEq, Repr

/-- Result of a successful invocation: new state, emitted events (in
emission order) and the returned byte payload. -/
structure InvokeOut where
  state : ChainState
  events : List ChainEvent
  payload : String
deriving DecidableEq, Repr

abbrev HRes := Except String InvokeOut

instance {ε α : Type} [DecidableEq ε] [DecidableEq α] : DecidableEq (Except ε α) := fun a b =>
  match a, b with
  | .ok x, .ok y => if h : x = y then .isTrue (by rw [h]) else .isFalse (by simp [h])
  | .error x, .error y => if h : x = y then .isTrue (by rw [h]) else .isFalse (by simp [h])
  | .ok _, .error _ => .isFalse (by simp)
  | .error _, .ok _ => .isFalse (by simp)

/-! ## Association-list store primitives -/

/-- Lookup in an association list (models `Get` within one prefix). -/
def lookupA {α : Type} (m : List (String × α)) (k : String) : Option α :=
  match m with
  | [] => none
  | (k', v) :: t => if k' = k then some v else lookupA t k

/-- Insert-or-overwrite (models `Put` within one prefix). -/
def putA {α : Type} (k : String) (v : α) : List (String × α) → List (String × α)
  | [] => [(k, v)]
  | (k', v') :: t => if k' = k then (k, v) :: t else (k', v') :: putA k v t

/-! ## Decimal parsing, mirroring Go's strconv -/

/-- Placeholder for error detail text produced by strconv / the SDK and
interpolated with `%v` in the source; the exact host text is not part
of the contract source. -/
def strconvErr : String := "strconv parse error"

def keyNotFoundErr : String := "key not found"

def digitsToNat (l : List Char) : Nat :=
  l.foldl (fun a c => a * 10 + (c.toNat - 48)) 0

def allDigits (l : List Char) : Bool :=
  !l.isEmpty && l.all (·.isDigit)

/-- Go strconv.ParseUint(s, 10, bits): digits only, range-checked. -/
def goParseUint (s : String) (bits : Nat) : Option Nat :=
  if allDigits s.toList then
    if digitsToNat s.toList < 2 ^ bits then some (digitsToNat s.toList) else none
  else none

/-- Go strconv.ParseInt(s, 10, 64) and strconv.Atoi: optional sign, then
digits, int64 range. -/
def goParseInt (s : String) : Option Int :=
  match s.toList with
  | '-' :: rest =>
    if allDigits rest then
      if (digitsToNat rest : Int) ≤ 2 ^ 63 then some (-(digitsToNat rest : Int)) else none
    else none
  | '+' :: rest =>
    if allDigits rest then
      if (digitsToNat rest : Int) < 2 ^ 63 then some (digitsToNat rest : Int) else none
    else none
  | l =>
    if allDigits l then
      if (digitsToNat l : Int) < 2 ^ 63 then some (digitsToNat l : Int) else none
    else none

/-! ## uint64 / int64 wrapping arithmetic -/

def U64 : Nat := 2 ^ 64

def u64add (a b : Nat) : Nat := (a + b) % U64

def u64sub (a b : Nat) : Nat := (a + U64 - b % U64) % U64

def u64mul (a b : Nat) : Nat := (a * b) % U64

/-- Go's `int64(u)` for a `uint64` value `u < 2^64`. -/
def toInt64 (n : Nat) : Int :=
  if n < 2 ^ 63 then (n : Int) else (n : Int) - 2 ^ 64

/-- Wrap an integer into int64 two's-complement range. -/
def i64wrap (x : Int) : Int :=
  ((x + 2 ^ 63) % 2 ^ 64) - 2 ^ 63

/-! ## Argument access -/

/-- A required argument: present and non-empty, else the handler's
"... is required" error (the source checks `exists && len(v) > 0`). -/
def reqArg (args : List (String × String)) (k msg : String) : Except String String :=
  match lookupA args k with
  | some v => if v = "" then .error msg else .ok v
  | none => .error msg

/-- An optional argument: Go `string(c.Args[k])` is "" when absent. -/
def optArg (args : List (String × String)) (k : String) : String :=
  (lookupA args k).getD ""

/-! ## JSON rendering of result payloads

The read-only handlers return `json.Marshal` of their result structs.
Field order follows the Go struct declaration (maps marshal with sorted
keys); string escaping beyond quoting is not modelled (no payload in
this development contains characters that Go would escape). -/

def jsStr (s : String) : String := "\"" ++ s ++ "\""

def jsBool (b : Bool) : String := if b then "true" else "false"

def objOpen : String := "\x7b"

def objClose : String := "\x7d"

def nodeJson (n : Node) : String :=
  objOpen ++
  jsStr "node_address" ++ ":" ++ jsStr n.NodeAddress ++ "," ++
  jsStr "stake_amount" ++ ":" ++ toString n.StakeAmount ++ "," ++
  jsStr "stake_start" ++ ":" ++ toString n.StakeStart ++ "," ++
  jsStr "reputation_score" ++ ":" ++ toString n.ReputationScore ++ "," ++
  jsStr "status" ++ ":" ++ toString n.Status.toNat ++ "," ++
  jsStr "node_id" ++ ":" ++ jsStr n.NodeId ++ "," ++
  jsStr "business_license" ++ ":" ++ jsStr n.BusinessLicense ++ "," ++
  jsStr "filing_number" ++ ":" ++ jsStr n.FilingNumber ++ "," ++
  jsStr "challenge_count" ++ ":" ++ toString n.ChallengeCount ++ "," ++
  jsStr "challenges_won" ++ ":" ++ toString n.ChallengesWon ++ "," ++
  jsStr "challenges_lost" ++ ":" ++ toString n.ChallengesLost ++ "," ++
  jsStr "last_seen" ++ ":" ++ toString n.LastSeen ++ "," ++
  jsStr "is_consensus_node" ++ ":" ++ jsBool n.IsConsensusNode ++ "," ++
  jsStr "is_threat_sensor" ++ ":" ++ jsBool n.IsThreatSensor ++ "," ++
  jsStr "agent_version" ++ ":" ++ jsStr n.AgentVersion ++ "," ++
  jsStr "deployment_type" ++ ":" ++ jsStr n.DeploymentType ++ "," ++
  jsStr "last_threat_report" ++ ":" ++ toString n.LastThreatReport ++ "," ++
  jsStr "threat_score" ++ ":" ++ toString n.ThreatScore ++ "," ++
  jsStr "verified_threats" ++ ":" ++ toString n.VerifiedThreats ++ "," ++
  jsStr "compliance_zone" ++ ":" ++ jsStr n.ComplianceZone ++
  objClose

/-- Go zero value of `Node` (marshalled inside an error `NodeInfo`). -/
def zeroNode : Node :=
  { NodeAddress := "", StakeAmount := 0, StakeStart := 0, ReputationScore := 0,
    Status := .Unregistered, NodeId := "", BusinessLicense := "", FilingNumber := "",
    ChallengeCount := 0, ChallengesWon := 0, ChallengesLost := 0, LastSeen := 0,
    IsConsensusNode := false, IsThreatSensor := false, AgentVersion := "",
    DeploymentType := "", LastThreatReport := 0, ThreatScore := 0,
    VerifiedThreats := 0, ComplianceZone := "" }

/-- NodeInfo marshal; the Error field carries omitempty. -/
def nodeInfoJson (n : Node) (success : Bool) (err : String) : String :=
  objOpen ++
  jsStr "node" ++ ":" ++ nodeJson n ++ "," ++
  jsStr "success" ++ ":" ++ jsBool success ++
  (if err = "" then "" else "," ++ jsStr "error" ++ ":" ++ jsStr err) ++
  objClose

def statsJson (totalStaked activeNodes tc tp te : Nat) : String :=
  objOpen ++
  jsStr "total_staked" ++ ":" ++ toString totalStaked ++ "," ++
  jsStr "active_nodes" ++ ":" ++ toString activeNodes ++ "," ++
  jsStr "total_consensus_nodes" ++ ":" ++ toString tc ++ "," ++
  jsStr "total_partition_nodes" ++ ":" ++ toString tp ++ "," ++
  jsStr "total_edge_nodes" ++ ":" ++ toString te ++
  objClose

def attestationJson (a : ThreatAttestation) : String :=
  objOpen ++
  jsStr "id" ++ ":" ++ jsStr a.ID ++ "," ++
  jsStr "timestamp" ++ ":" ++ toString a.Timestamp ++ "," ++
  jsStr "source_ip" ++ ":" ++ jsStr a.SourceIP ++ "," ++
  jsStr "target_ip" ++ ":" ++ jsStr a.TargetIP ++ "," ++
  jsStr "threat_type" ++ ":" ++ jsStr a.ThreatType ++ "," ++
  jsStr "threat_level" ++ ":" ++ toString a.ThreatLevel.toNat ++ "," ++
  jsStr "context" ++ ":" ++ jsStr a.Context ++ "," ++
  jsStr "agent_id" ++ ":" ++ jsStr a.AgentID ++ "," ++
  jsStr "signature" ++ ":" ++ jsStr a.Signature ++ "," ++
  jsStr "evidence_hash" ++ ":" ++ jsStr a.EvidenceHash ++ "," ++
  jsStr "geolocation" ++ ":" ++ jsStr a.Geolocation ++ "," ++
  jsStr "network_flow" ++ ":" ++ jsStr a.NetworkFlow ++
  objClose

/-- Marshal of one global-threat-list entry: a Go map, keys sorted. -/
def threatEntryJson (e : ThreatEntry) : String :=
  objOpen ++
  jsStr "first_seen" ++ ":" ++ toString e.first_seen ++ "," ++
  jsStr "ip" ++ ":" ++ jsStr e.ip ++ "," ++
  jsStr "last_seen" ++ ":" ++ toString e.last_seen ++ "," ++
  (match e.last_updated with
   | some t => jsStr "last_updated" ++ ":" ++ toString t ++ ","
   | none => "") ++
  jsStr "level" ++ ":" ++ toString e.level ++ "," ++
  jsStr "report_count" ++ ":" ++ toString e.report_count ++
  objClose

def jsonArray (l : List String) : String :=
  "[" ++ String.intercalate "," l ++ "]"

/-! ## Contract helper methods (from the source) -/

/-- Source helper getMinStakeForNodeType. -/
def getMinStakeForNodeType (nodeType : Nat) : Nat :=
  if nodeType = 0 then 10000
  else if nodeType = 1 then 5000
  else 100

/-- Source helper saveNode: writes `NODE_<addr>` and the `NODEID_TO_ADDR_<id>`
mapping. -/
abbrev saveNode (s : ChainState) (node : Node) : ChainState :=
  { s with
    nodes := putA node.NodeAddress node s.nodes,
    idToAddr := putA node.NodeId node.NodeAddress s.idToAddr }

/-- Source helper getNodeByAddress. -/
def getNodeByAddress (s : ChainState) (addr : String) : Except String Node :=
  match lookupA s.nodes addr with
  | none => .error ("node not found for address " ++ addr ++ ": " ++ keyNotFoundErr)
  | some n => .ok n

/-- Source helper getNodeAddressById. -/
def getNodeAddressById (s : ChainState) (nodeId : String) : Except String String :=
  match lookupA s.idToAddr nodeId with
  | none => .error ("node id not found: " ++ keyNotFoundErr)
  | some a => .ok a

/-- Source helper isNonceUsed: a `Get` on `USED_NONCE_<hash>` that succeeds. -/
def isNonceUsed (s : ChainState) (nonceHash : String) : Bool :=
  (lookupA s.usedNonces ("USED_NONCE_" ++ nonceHash)).isSome

/-- Source helper setNonceUsed. -/
abbrev setNonceUsed (s : ChainState) (nonceHash : String) : ChainState :=
  { s with usedNonces := putA ("USED_NONCE_" ++ nonceHash) "used" s.usedNonces }

/-- Source helper getContractState: reads `CONTRACT_STATE_` and Atoi-parses it.
The Go code converts the parsed int to the named type `ContractState`
without range restriction, so the result is kept as the raw integer
(`0` is `StateActive`, `1` is `Paused`, `2` is `EmergencyStopped`). -/
def getContractState (s : ChainState) : Except String Int :=
  match s.contractState with
  | none => .error ("failed to get contract state: " ++ keyNotFoundErr)
  | some str =>
    match goParseInt str with
    | none => .error ("invalid contract state: " ++ strconvErr)
    | some n => .ok n

/-- Capability check onlyOwner. -/
def onlyOwner (s : ChainState) (caller : String) : Except String Unit :=
  match s.owner with
  | none => .error ("failed to get owner address: " ++ keyNotFoundErr)
  | some ownerAddr =>
    if caller ≠ ownerAddr then
      .error ("only owner can call this function, caller: " ++ caller ++ ", owner: " ++ ownerAddr)
    else .ok ()

/-- Capability check onlyGovernance. -/
def onlyGovernance (s : ChainState) (caller : String) : Except String Unit :=
  match s.governance with
  | none => .error ("failed to get governance address: " ++ keyNotFoundErr)
  | some governanceAddr =>
    if caller ≠ governanceAddr then
      .error ("only governance can call this function, caller: " ++ caller ++ ", governance: " ++ governanceAddr)
    else .ok ()

/-- Capability check onlyValidator: `Get VALIDATOR_<caller>` must succeed with "1". -/
def onlyValidator (s : ChainState) (caller : String) : Except String Unit :=
  match lookupA s.validators caller with
  | some v => if v = "1" then .ok () else
      .error ("only authorized validators can call this function, caller: " ++ caller)
  | none => .error ("only authorized validators can call this function, caller: " ++ caller)

/-- Capability check onlyActiveNode (threat-intelligence part). -/
def onlyActiveNode (s : ChainState) (caller : String) : Except String Unit :=
  match getNodeByAddress s caller with
  | .error e => .error ("node not found: " ++ e)
  | .ok node =>
    if node.Status ≠ .Active then
      .error ("only active nodes can call this function, current status: " ++ toString node.Status.toNat)
    else .ok ()

/-- Source helper validateBusinessLicense: byte length at least 10. -/
def validateBusinessLicense (licenseHash : String) : Bool :=
  10 ≤ licenseHash.utf8ByteSize

/-- Source helper validateFilingNumber: byte length at least 10. -/
def validateFilingNumber (filingHash : String) : Bool :=
  10 ≤ filingHash.utf8ByteSize

/-- Source helper applyReputationRules. -/
def applyReputationRules (node : Node) : Node :=
  if node.ReputationScore < 80 then
    if node.IsConsensusNode then { node with IsConsensusNode := false } else node
  else node

/-- Source helper addNodeToConsensusList: capacity 21, duplicate check, append. -/
def addNodeToConsensusList (s : ChainState) (nodeAddr : String) : Except String ChainState :=
  match s.consensus with
  | none => .error ("failed to get consensus nodes: " ++ keyNotFoundErr)
  | some consensusNodes =>
    if consensusNodes.length ≥ 21 then
      .error "max consensus nodes reached: 21"
    else if nodeAddr ∈ consensusNodes then
      .error ("node already in consensus list: " ++ nodeAddr)
    else
      .ok { s with consensus := some (consensusNodes ++ [nodeAddr]) }

/-- Source helper addNodeToPartitionList: duplicate check, append (no cap). -/
def addNodeToPartitionList (s : ChainState) (nodeAddr : String) : Except String ChainState :=
  match s.partition with
  | none => .error ("failed to get partition nodes: " ++ keyNotFoundErr)
  | some partitionNodes =>
    if nodeAddr ∈ partitionNodes then
      .error ("node already in partition list: " ++ nodeAddr)
    else
      .ok { s with partition := some (partitionNodes ++ [nodeAddr]) }

/-- Source helper addNodeToEdgeList: duplicate check, append (no cap). -/
def addNodeToEdgeList (s : ChainState) (nodeAddr : String) : Except String ChainState :=
  match s.edge with
  | none => .error ("failed to get edge nodes: " ++ keyNotFoundErr)
  | some edgeNodes =>
    if nodeAddr ∈ edgeNodes then
      .error ("node already in edge list: " ++ nodeAddr)
    else
      .ok { s with edge := some (edgeNodes ++ [nodeAddr]) }

/-- Source helper removeNodeFromConsensusList: keeps every address other than the
target (order preserved). -/
def removeNodeFromConsensusList (s : ChainState) (nodeAddr : String) : Except String ChainState :=
  match s.consensus with
  | none => .error ("failed to get consensus nodes: " ++ keyNotFoundErr)
  | some consensusNodes =>
    .ok { s with consensus := some (consensusNodes.filter (· ≠ nodeAddr)) }

/-! ## Staking-part handlers -/

/-- The node literal built by `stakeWithGmSign` (source lines creating
`node := Node{...}`); fields the literal omits get Go zero values. -/
def stakeNodeRec (caller nodeId : String) (amount : Nat) (ts : Int) (bl fil : String) : Node :=
  { NodeAddress := caller, StakeAmount := amount, StakeStart := ts,
    ReputationScore := 100, Status := .Registered, NodeId := nodeId,
    BusinessLicense := bl, FilingNumber := fil,
    ChallengeCount := 0, ChallengesWon := 0, ChallengesLost := 0,
    LastSeen := ts, IsConsensusNode := false,
    IsThreatSensor := false, AgentVersion := "", DeploymentType := "",
    LastThreatReport := 0, ThreatScore := 0, VerifiedThreats := 0,
    ComplianceZone := "" }

/-- The anti-replay request key
`fmt.Sprintf("%s_%s_%d_%d_%d", caller, nodeId, amount, ts, nonce)`. -/
def requestKeyOf (caller nodeId : String) (amount : Nat) (ts : Int) (nonce : Nat) : String :=
  caller ++ "_" ++ nodeId ++ "_" ++ toString amount ++ "_" ++ toString ts ++ "_" ++ toString nonce

/-- The argument-extraction and parsing block of `stakeWithGmSign`
(source lines fetching node_id .. node_type and the three strconv
conversions), bundled. -/
structure StakeParams where
  nodeId : String
  amountStr : String
  nonceStr : String
  nodeTypeStr : String
  sm2Signature : String
  dataHash : String
  businessLicenseHash : String
  filingNumberHash : String
  amount : Nat
  nonce : Nat
  nodeType : Nat
deriving DecidableEq, Repr

def stakeArgs (c : Ctx) : Except String StakeParams :=
  match reqArg c.args "node_id" "node_id is required" with
  | .error e => .error e
  | .ok nodeId =>
  match reqArg c.args "amount" "amount is required" with
  | .error e => .error e
  | .ok amountStr =>
  match reqArg c.args "sm2_signature" "sm2_signature is required" with
  | .error e => .error e
  | .ok sm2Signature =>
  match reqArg c.args "data_hash" "data_hash is required" with
  | .error e => .error e
  | .ok dataHash =>
  match reqArg c.args "nonce" "nonce is required" with
  | .error e => .error e
  | .ok nonceStr =>
  match reqArg c.args "business_license_hash" "business_license_hash is required" with
  | .error e => .error e
  | .ok businessLicenseHash =>
  match reqArg c.args "filing_number_hash" "filing_number_hash is required" with
  | .error e => .error e
  | .ok filingNumberHash =>
  match reqArg c.args "node_type" "node_type is required" with
  | .error e => .error e
  | .ok nodeTypeStr =>
  match goParseUint amountStr 64 with
  | none => .error ("invalid amount: " ++ strconvErr)
  | some amount =>
  match goParseUint nonceStr 64 with
  | none => .error ("invalid nonce: " ++ strconvErr)
  | some nonce =>
  match goParseUint nodeTypeStr 8 with
  | none => .error ("invalid node type: " ++ strconvErr)
  | some nodeType =>
    .ok { nodeId := nodeId, amountStr := amountStr, nonceStr := nonceStr,
          nodeTypeStr := nodeTypeStr, sm2Signature := sm2Signature, dataHash := dataHash,
          businessLicenseHash := businessLicenseHash, filingNumberHash := filingNumberHash,
          amount := amount, nonce := nonce, nodeType := nodeType }

/-- The tier-dispatch tail of `stakeWithGmSign` (the `switch nodeType`
of the source): insert into the matching tier list, for type 0 also
re-save the node with the consensus flag set, then emit `NodeStaked`. -/
def stakeFinish (c : Ctx) (nodeId : String) (amount : Nat) (node : Node) (s2 : ChainState)
    (nodeType : Nat) : HRes :=
  if nodeType = 0 then
    match addNodeToConsensusList s2 c.caller with
    | .error e => .error ("failed to add to consensus list: " ++ e)
    | .ok s3 =>
      .ok { state := saveNode s3 { node with IsConsensusNode := true },
            events := [{ name := "NodeStaked", data := [nodeId, c.caller, toString amount] }],
            payload := "Node staked successfully" }
  else if nodeType = 1 then
    match addNodeToPartitionList s2 c.caller with
    | .error e => .error ("failed to add to partition list: " ++ e)
    | .ok s3 =>
      .ok { state := s3,
            events := [{ name := "NodeStaked", data := [nodeId, c.caller, toString amount] }],
            payload := "Node staked successfully" }
  else
    match addNodeToEdgeList s2 c.caller with
    | .error e => .error ("failed to add to edge list: " ++ e)
    | .ok s3 =>
      .ok { state := s3,
            events := [{ name := "NodeStaked", data := [nodeId, c.caller, toString amount] }],
            payload := "Node staked successfully" }

/-- The post-nonce validation and node-creation part of
`stakeWithGmSign`: minimum stake, node-id uniqueness, licence/filing
checks, node record creation, then the tier dispatch. -/
def stakeChecked (c : Ctx) (s : ChainState) (p : StakeParams) : HRes :=
  let s1 := setNonceUsed s (requestKeyOf c.caller p.nodeId p.amount c.txTimeStamp p.nonce)
  if p.amount < getMinStakeForNodeType p.nodeType then
    .error ("insufficient stake amount, required: " ++ toString (getMinStakeForNodeType p.nodeType) ++
      ", provided: " ++ toString p.amount)
  else if (match lookupA s1.idToAddr p.nodeId with
           | some existingAddr => existingAddr != ""
           | none => false) then
    .error ("node ID already exists: " ++ p.nodeId)
  else if p.businessLicenseHash = "" then .error "business license hash is required"
  else if p.filingNumberHash = "" then .error "filing number hash is required"
  else if ¬ validateBusinessLicense p.businessLicenseHash then .error "invalid business license format"
  else if ¬ validateFilingNumber p.filingNumberHash then .error "invalid filing number format"
  else
    let node := stakeNodeRec c.caller p.nodeId p.amount c.txTimeStamp
                  p.businessLicenseHash p.filingNumberHash
    stakeFinish c p.nodeId p.amount node (saveNode s1 node) p.nodeType

/-- Handler stakeWithGmSign (the staking handler): contract-state gate,
argument block, anti-replay nonce check, then `stakeChecked`.  The
in-source SM2 verification is hard-coded `valid := true` (the real
call is commented out), so no signature check can fail. -/
def stakeWithGmSign (c : Ctx) (s : ChainState) : HRes :=
  match getContractState s with
  | .error e => .error e
  | .ok st =>
  if st ≠ 0 then .error ("contract is not active, current state: " ++ toString st) else
  match stakeArgs c with
  | .error e => .error e
  | .ok p =>
  if isNonceUsed s (requestKeyOf c.caller p.nodeId p.amount c.txTimeStamp p.nonce) then
    .error "nonce already used"
  else
    stakeChecked c s p

/-- Handler getNodeInfo (read-only; lookup failure is reported inside the
payload, not as an invocation error). -/
def getNodeInfo (c : Ctx) (s : ChainState) : HRes :=
  match reqArg c.args "node_address" "node address is required" with
  | .error e => .error e
  | .ok nodeAddr =>
  match getNodeByAddress s nodeAddr with
  | .error e => .ok { state := s, events := [], payload := nodeInfoJson zeroNode false e }
  | .ok node => .ok { state := s, events := [], payload := nodeInfoJson node true "" }

/-- The Active-only stake/count accumulation of `getContractStats`
(`TotalStaked` is a uint64 running sum). -/
def statsFold (s : ChainState) (addrs : List String) (acc : Nat × Nat) : Nat × Nat :=
  match addrs with
  | [] => acc
  | a :: t =>
    match lookupA s.nodes a with
    | some node =>
      if node.Status = .Active then
        statsFold s t (u64add acc.1 node.StakeAmount, acc.2 + 1)
      else statsFold s t acc
    | none => statsFold s t acc

/-- Handler getContractStats (read-only). -/
def getContractStats (_c : Ctx) (s : ChainState) : HRes :=
  match s.consensus with
  | none => .error ("failed to get consensus nodes: " ++ keyNotFoundErr)
  | some consensusNodes =>
  match s.partition with
  | none => .error ("failed to get partition nodes: " ++ keyNotFoundErr)
  | some partitionNodes =>
  match s.edge with
  | none => .error ("failed to get edge nodes: " ++ keyNotFoundErr)
  | some edgeNodes =>
  let acc1 := statsFold s consensusNodes (0, 0)
  let acc2 := statsFold s partitionNodes acc1
  let acc3 := statsFold s edgeNodes acc2
  .ok { state := s, events := [],
        payload := statsJson acc3.1 acc3.2 consensusNodes.length partitionNodes.length edgeNodes.length }

/-- Handler submitChallenge: validates, emits `NodeChallenged`, writes
nothing. -/
def submitChallenge (c : Ctx) (s : ChainState) : HRes :=
  match reqArg c.args "cache_key" "cache_key is required" with
  | .error e => .error e
  | .ok cacheKey =>
  match reqArg c.args "reason" "reason is required" with
  | .error e => .error e
  | .ok reason =>
  if (match getNodeByAddress s c.caller with
      | .error _ => true
      | .ok node => node.Status != .Active) then
    .error "challenger is not an active node"
  else
    .ok { state := s,
          events := [{ name := "NodeChallenged",
                       data := ["challenge_" ++ cacheKey ++ "_" ++ toString c.txTimeStamp,
                                cacheKey, c.caller, reason, toString c.txTimeStamp] }],
          payload := "Challenge submitted successfully" }

/-- Handler updateReputation: validator-only bounded additive update.  The
uint64 score is converted to int64, the delta is added (int64
wrap-around kept), the sum clamped to [0, 1000]. -/
def updateReputation (c : Ctx) (s : ChainState) : HRes :=
  match onlyValidator s c.caller with
  | .error e => .error e
  | .ok _ =>
  match reqArg c.args "node_address" "node_address is required" with
  | .error e => .error e
  | .ok nodeAddr =>
  match reqArg c.args "reputation_delta" "reputation_delta is required" with
  | .error e => .error e
  | .ok reputationDeltaStr =>
  match goParseInt reputationDeltaStr with
  | none => .error ("invalid reputation_delta: " ++ strconvErr)
  | some reputationDelta =>
  match getNodeByAddress s nodeAddr with
  | .error e => .error ("node not found: " ++ e)
  | .ok node =>
  let newReputation0 := i64wrap (toInt64 node.ReputationScore + reputationDelta)
  let newReputation1 := if newReputation0 < 0 then 0 else newReputation0
  let newReputation := if newReputation1 > 1000 then 1000 else newReputation1
  let node1 := applyReputationRules { node with ReputationScore := newReputation.toNat }
  .ok { state := saveNode s node1,
        events := [{ name := "ReputationUpdated",
                     data := [nodeAddr, reputationDeltaStr, toString node1.ReputationScore,
                              toString c.txTimeStamp] }],
        payload := "Reputation updated successfully" }

/-- Handler slashNode: governance-only full slash (penalty rate 100).  The
`removeNodeFromConsensusList` error and the second `saveNode` error are
discarded by the source; in this model neither can fail but the
discarding is mirrored by the `match` that keeps the state on error. -/
def slashNode (c : Ctx) (s : ChainState) : HRes :=
  match onlyGovernance s c.caller with
  | .error e => .error e
  | .ok _ =>
  match reqArg c.args "node_address" "node_address is required" with
  | .error e => .error e
  | .ok nodeAddr =>
  match reqArg c.args "reason" "reason is required" with
  | .error e => .error e
  | .ok reason =>
  match getNodeByAddress s nodeAddr with
  | .error e => .error ("node not found: " ++ e)
  | .ok node =>
  let penaltyAmount := u64mul node.StakeAmount 100 / 100
  let node1 := { node with StakeAmount := u64sub node.StakeAmount penaltyAmount,
                           Status := .Slashed }
  let s1 := saveNode s node1
  let s2 :=
    if node1.IsConsensusNode then
      let s1' := match removeNodeFromConsensusList s1 nodeAddr with
        | .ok s1' => s1'
        | .error _ => s1
      saveNode s1' { node1 with IsConsensusNode := false }
    else s1
  .ok { state := s2,
        events := [{ name := "NodeSlashed",
                     data := [nodeAddr, toString penaltyAmount, reason, toString c.txTimeStamp] }],
        payload := "Node slashed successfully" }

/-- Handler requestWithdrawal: lock-period-gated stake decrement plus
cumulative pending-withdrawal ledger entry. -/
def requestWithdrawal (c : Ctx) (s : ChainState) : HRes :=
  match reqArg c.args "amount" "amount is required" with
  | .error e => .error e
  | .ok amountStr =>
  match goParseUint amountStr 64 with
  | none => .error ("invalid amount: " ++ strconvErr)
  | some amount =>
  match getNodeByAddress s c.caller with
  | .error e => .error ("node not found: " ++ e)
  | .ok node =>
  if node.Status = .Slashed then .error "slashed nodes cannot withdraw" else
  if c.txTimeStamp < node.StakeStart + 7 * 24 * 60 * 60 then .error "lock period not ended" else
  if node.StakeAmount < amount then
    .error ("insufficient stake amount, available: " ++ toString node.StakeAmount ++
      ", requested: " ++ toString amount)
  else
  let node1 := { node with StakeAmount := u64sub node.StakeAmount amount }
  let s1 := saveNode s node1
  let currentPending :=
    match lookupA s1.pendingWithdrawal c.caller with
    | none => 0
    | some str => (goParseUint str 64).getD 0
  let s2 := { s1 with pendingWithdrawal := putA c.caller (toString (u64add currentPending amount)) s1.pendingWithdrawal }
  .ok { state := s2,
        events := [{ name := "WithdrawalRequested", data := [c.caller, amountStr, toString c.txTimeStamp] }],
        payload := "Withdrawal requested successfully" }

/-- Handler addValidator: owner-only registration `VALIDATOR_<addr> = "1"`. -/
def addValidator (c : Ctx) (s : ChainState) : HRes :=
  match onlyOwner s c.caller with
  | .error e => .error e
  | .ok _ =>
  match reqArg c.args "validator_address" "validator_address is required" with
  | .error e => .error e
  | .ok validatorAddr =>
  if validatorAddr.utf8ByteSize < 10 then .error "invalid validator address format" else
  .ok { state := { s with validators := putA validatorAddr "1" s.validators },
        events := [{ name := "ValidatorAdded", data := [validatorAddr, toString c.txTimeStamp] }],
        payload := "Validator added successfully" }

/-- Handler pauseContract: governance-only, writes state 1. -/
def pauseContract (c : Ctx) (s : ChainState) : HRes :=
  match onlyGovernance s c.caller with
  | .error e => .error e
  | .ok _ =>
  .ok { state := { s with contractState := some "1" },
        events := [{ name := "ContractPaused", data := [toString c.txTimeStamp] }],
        payload := "Contract paused successfully" }

/-- Handler resumeContract: governance-only, writes state 0. -/
def resumeContract (c : Ctx) (s : ChainState) : HRes :=
  match onlyGovernance s c.caller with
  | .error e => .error e
  | .ok _ =>
  .ok { state := { s with contractState := some "0" },
        events := [{ name := "ContractResumed", data := [toString c.txTimeStamp] }],
        payload := "Contract resumed successfully" }

/-! ## Threat-intelligence handlers -/

/-- Go strings.Split on a single separator character, structurally. -/
def splitOnChar (sep : Char) : List Char → List (List Char)
  | [] => [[]]
  | x :: t =>
    match splitOnChar sep t with
    | [] => [[x]]
    | h :: r => if x = sep then [] :: h :: r else (x :: h) :: r

/-- Source helper isValidIP: every dot-separated segment is empty (wildcard) or
parses with `strconv.Atoi`. -/
def isValidIP (ip : String) : Bool :=
  (splitOnChar '.' ip.toList).all
    (fun part => part.isEmpty || (goParseInt (String.mk part)).isSome)

/-- Source helper isThreatReportDuplicate: a `Get` on the duplicate key that
succeeds. -/
def isThreatReportDuplicate (s : ChainState) (key : String) : Bool :=
  (lookupA s.dupKeys key).isSome

/-- The 5-minute duplicate-suppression key
`fmt.Sprintf("THREAT_DUPLICATE_%s_%s_%s", src, type, ts/300)`
(Go int64 division truncates toward zero). -/
def dupKeyOf (sourceIP threatType : String) (ts : Int) : String :=
  "THREAT_DUPLICATE_" ++ sourceIP ++ "_" ++ threatType ++ "_" ++ toString (Int.tdiv ts 300)

/-- Source helper validateThreatReport: IP checks, duplicate suppression, and the
marking `Put` (the validation itself writes the duplicate key). -/
def validateThreatReport (s : ChainState) (a : ThreatAttestation) : Except String ChainState :=
  if ¬ isValidIP a.SourceIP then
    .error ("invalid source IP format: " ++ a.SourceIP)
  else if ¬ isValidIP a.TargetIP then
    .error ("invalid target IP format: " ++ a.TargetIP)
  else if isThreatReportDuplicate s (dupKeyOf a.SourceIP a.ThreatType a.Timestamp) then
    .error "duplicate threat report detected"
  else
    .ok { s with dupKeys := putA (dupKeyOf a.SourceIP a.ThreatType a.Timestamp) "1" s.dupKeys }

/-- The in-place update pass of `addToGlobalThreatList`: raise the
level (and set last_updated) of the first entry matching the ip when
the new level is strictly higher; report whether the ip was found. -/
def updThreatList (l : List ThreatEntry) (ip : String) (level : Nat) (ts : Int) :
    List ThreatEntry × Bool :=
  match l with
  | [] => ([], false)
  | e :: t =>
    if e.ip = ip then
      (if level > e.level then { e with level := level, last_updated := some ts } :: t
       else e :: t, true)
    else
      let r := updThreatList t ip level ts
      (e :: r.1, r.2)

/-- Source helper addToGlobalThreatList: a missing list is treated as empty; a new
ip is appended with report_count 1.  (The unmarshal/Put errors of the
source cannot occur in this model.) -/
def addToGlobalThreatList (s : ChainState) (ip : String) (level : Nat) (ts : Int) :
    Except String ChainState :=
  let threatList := s.globalThreatList.getD []
  let r := updThreatList threatList ip level ts
  let newList :=
    if r.2 then r.1
    else r.1 ++ [{ ip := ip, level := level, first_seen := ts, last_seen := ts,
                   report_count := 1, last_updated := none }]
  .ok { s with globalThreatList := some newList }

/-- ThreatLevel parse by name in `submitThreatReport`. -/
def parseThreatLevel (s : String) : Option ThreatLevel :=
  if s = "Info" then some .Info
  else if s = "Warning" then some .Warning
  else if s = "Critical" then some .Critical
  else if s = "Emergency" then some .Emergency
  else none

/-- Handler submitThreatReport.  Note the source discards the error of
`addToGlobalThreatList` (it only prints a warning), mirrored here by
the `match` that keeps the prior state on error. -/
def submitThreatReport (c : Ctx) (s : ChainState) : HRes :=
  match onlyActiveNode s c.caller with
  | .error e => .error ("only active nodes can submit threat reports: " ++ e)
  | .ok _ =>
  match reqArg c.args "threat_type" "threat_type is required" with
  | .error e => .error e
  | .ok threatType =>
  match reqArg c.args "source_ip" "source_ip is required" with
  | .error e => .error e
  | .ok sourceIP =>
  match reqArg c.args "target_ip" "target_ip is required" with
  | .error e => .error e
  | .ok targetIP =>
  match reqArg c.args "threat_level" "threat_level is required" with
  | .error e => .error e
  | .ok threatLevelStr =>
  match parseThreatLevel threatLevelStr with
  | none => .error ("invalid threat_level: " ++ threatLevelStr)
  | some threatLevel =>
  match reqArg c.args "context" "context is required" with
  | .error e => .error e
  | .ok context =>
  let reportID := "threat_" ++ sourceIP ++ "_" ++ toString c.txTimeStamp
  let attestation : ThreatAttestation :=
    { ID := reportID, Timestamp := c.txTimeStamp, SourceIP := sourceIP,
      TargetIP := targetIP, ThreatType := threatType, ThreatLevel := threatLevel,
      Context := context, AgentID := c.caller, Signature := "",
      EvidenceHash := optArg c.args "evidence_hash",
      Geolocation := optArg c.args "geolocation",
      NetworkFlow := optArg c.args "network_flow" }
  match validateThreatReport s attestation with
  | .error e => .error ("threat report validation failed: " ++ e)
  | .ok s1 =>
  let s2 := { s1 with attestations := putA reportID attestation s1.attestations }
  match getNodeByAddress s2 c.caller with
  | .error e => .error ("failed to get node: " ++ e)
  | .ok node =>
  let node1 := { node with LastThreatReport := c.txTimeStamp,
                           ChallengeCount := u64add node.ChallengeCount 1 }
  let s3 := saveNode s2 node1
  let s4 :=
    if threatLevel.toNat ≥ ThreatLevel.Critical.toNat then
      match addToGlobalThreatList s3 sourceIP threatLevel.toNat c.txTimeStamp with
      | .ok s4 => s4
      | .error _ => s3
    else s3
  .ok { state := s4,
        events := [{ name := "ThreatReported",
                     data := [reportID, sourceIP, targetIP, threatType, toString c.txTimeStamp] }],
        payload := reportID }

/-- Handler verifyThreatReport: validator-only.  Writes the per-(report,
verifier) stamp unconditionally (no existence check), then — since the
in-source `verificationResult` is hard-coded true — credits the
reporting agent's node (+5 reputation, +1 verified threats, both
uint64, no clamp); a missing agent node is only warned about. -/
def verifyThreatReport (c : Ctx) (s : ChainState) : HRes :=
  match onlyValidator s c.caller with
  | .error e => .error ("only validators can verify threat reports: " ++ e)
  | .ok _ =>
  match reqArg c.args "report_id" "report_id is required" with
  | .error e => .error e
  | .ok reportID =>
  match lookupA s.attestations reportID with
  | none => .error ("threat report not found: " ++ reportID)
  | some attestation =>
  let stamp : VerifStamp :=
    { verifier := c.caller, verified := true, timestamp := c.txTimeStamp, report_id := reportID }
  let s1 := { s with verifStamps := putA (reportID ++ "_" ++ c.caller) stamp s.verifStamps }
  let s2 :=
    match getNodeByAddress s1 attestation.AgentID with
    | .error _ => s1
    | .ok node =>
      saveNode s1 { node with ReputationScore := u64add node.ReputationScore 5,
                              VerifiedThreats := u64add node.VerifiedThreats 1 }
  .ok { state := s2,
        events := [{ name := "ThreatVerified",
                     data := [reportID, c.caller, "true", toString c.txTimeStamp] }],
        payload := "Threat verification recorded" }

/-- Handler getThreatReport (read-only; returns the stored attestation
bytes). -/
def getThreatReport (c : Ctx) (s : ChainState) : HRes :=
  match reqArg c.args "report_id" "report_id is required" with
  | .error e => .error e
  | .ok reportID =>
  match lookupA s.attestations reportID with
  | none => .error ("threat report not found: " ++ reportID)
  | some attestation => .ok { state := s, events := [], payload := attestationJson attestation }

/-- Handler getGlobalThreatList (read-only; a missing list marshals as
`[]`). -/
def getGlobalThreatList (_c : Ctx) (s : ChainState) : HRes :=
  match s.globalThreatList with
  | none => .ok { state := s, events := [], payload := "[]" }
  | some l => .ok { state := s, events := [], payload := jsonArray (l.map threatEntryJson) }

/-! ## Dispatcher and initialization -/

/-- Dispatcher InvokeContract: method dispatch.  A missing `method` argument is
Go's `string(nil) = ""`.  The ok-flag of the Go triple is `err == nil`,
i.e. exactly the `.ok`/`.error` distinction of the result. -/
def invokeContract (c : Ctx) (s : ChainState) : HRes :=
  let method := (lookupA c.args "method").getD ""
  if method = "" then .error "method is required"
  else if method = "stakeWithGmSign" then stakeWithGmSign c s
  else if method = "getNodeInfo" then getNodeInfo c s
  else if method = "getContractStats" then getContractStats c s
  else if method = "submitChallenge" then submitChallenge c s
  else if method = "updateReputation" then updateReputation c s
  else if method = "slashNode" then slashNode c s
  else if method = "requestWithdrawal" then requestWithdrawal c s
  else if method = "addValidator" then addValidator c s
  else if method = "pauseContract" then pauseContract c s
  else if method = "resumeContract" then resumeContract c s
  else if method = "submitThreatReport" then submitThreatReport c s
  else if method = "verifyThreatReport" then verifyThreatReport c s
  else if method = "getThreatReport" then getThreatReport c s
  else if method = "getGlobalThreatList" then getGlobalThreatList c s
  else .error ("unknown method: " ++ method)

/-- Initialization InitContract: state := Active ("0"), owner := caller, governance
from `_arg0` / `governance_address` / caller, three empty tier lists.
(The `Put` errors of the source cannot occur in this model, so
initialization always succeeds.) -/
def initContract (c : Ctx) : ChainState :=
  let governanceAddr :=
    if optArg c.args "_arg0" ≠ "" then optArg c.args "_arg0"
    else if optArg c.args "governance_address" ≠ "" then optArg c.args "governance_address"
    else c.caller
  { contractState := some "0", owner := some c.caller, governance := some governanceAddr,
    nodes := [], idToAddr := [], consensus := some [], partition := some [], edge := some [],
    pendingWithdrawal := [], usedNonces := [], validators := [], attestations := [],
    verifStamps := [], dupKeys := [], globalThreatList := none }

/-! ## Reachability -/

/-- States reachable by initializing the contract and then applying any
sequence of successful invocations (a failed invocation is rolled back
by the host and leaves the state unchanged). -/
inductive Reachable : ChainState → Prop
  | init (c : Ctx) : Reachable (initContract c)
  | step {s : ChainState} {c : Ctx} {r : InvokeOut} :
      Reachable s → invokeContract c s = .ok r → Reachable r.state

/-! ## A store-fault variant of submitThreatReport (for the
secondary-update error-propagation analysis)

`addToGlobalThreatList` ends in a host-store `Put` whose error the
source checks and returns; the spec's failure model admits store
errors.  `addToGlobalThreatListFault` is `addToGlobalThreatList` with
that single `Put` failing, and `submitThreatReportFault` is
`submitThreatReport` with this failing secondary update — every other
line is identical, in particular the `match` that swallows the error
of the secondary update. -/

/-- Variant of addToGlobalThreatList when the final `Put` of
`GLOBAL_THREAT_LIST_` is failed by the host store. -/
def addToGlobalThreatListFault (_s : ChainState) (_ip : String) (_level : Nat) (_ts : Int) :
    Except String ChainState :=
  .error ("failed to save updated threat list: " ++ "store put error")

/-- Variant of submitThreatReport under the store fault above. -/
def submitThreatReportFault (c : Ctx) (s : ChainState) : HRes :=
  match onlyActiveNode s c.caller with
  | .error e => .error ("only active nodes can submit threat reports: " ++ e)
  | .ok _ =>
  match reqArg c.args "threat_type" "threat_type is required" with
  | .error e => .error e
  | .ok threatType =>
  match reqArg c.args "source_ip" "source_ip is required" with
  | .error e => .error e
  | .ok sourceIP =>
  match reqArg c.args "target_ip" "target_ip is required" with
  | .error e => .error e
  | .ok targetIP =>
  match reqArg c.args "threat_level" "threat_level is required" with
  | .error e => .error e
  | .ok threatLevelStr =>
  match parseThreatLevel threatLevelStr with
  | none => .error ("invalid threat_level: " ++ threatLevelStr)
  | some threatLevel =>
  match reqArg c.args "context" "context is required" with
  | .error e => .error e
  | .ok context =>
  let reportID := "threat_" ++ sourceIP ++ "_" ++ toString c.txTimeStamp
  let attestation : ThreatAttestation :=
    { ID := reportID, Timestamp := c.txTimeStamp, SourceIP := sourceIP,
      TargetIP := targetIP, ThreatType := threatType, ThreatLevel := threatLevel,
      Context := context, AgentID := c.caller, Signature := "",
      EvidenceHash := optArg c.args "evidence_hash",
      Geolocation := optArg c.args "geolocation",
      NetworkFlow := optArg c.args "network_flow" }
  match validateThreatReport s attestation with
  | .error e => .error ("threat report validation failed: " ++ e)
  | .ok s1 =>
  let s2 := { s1 with attestations := putA reportID attestation s1.attestations }
  match getNodeByAddress s2 c.caller with
  | .error e => .error ("failed to get node: " ++ e)
  | .ok node =>
  let node1 := { node with LastThreatReport := c.txTimeStamp,
                           ChallengeCount := u64add node.ChallengeCount 1 }
  let s3 := saveNode s2 node1
  let s4 :=
    if threatLevel.toNat ≥ ThreatLevel.Critical.toNat then
      match addToGlobalThreatListFault s3 sourceIP threatLevel.toNat c.txTimeStamp with
      | .ok s4 => s4
      | .error _ => s3
    else s3
  .ok { state := s4,
        events := [{ name := "ThreatReported",
                     data := [reportID, sourceIP, targetIP, threatType, toString c.txTimeStamp] }],
        payload := reportID }

/-! ## Concrete fixtures used by witnesses and counterexamples -/

def fxInitCtx : Ctx := { caller := "OWNER_ADDR_000001", txTimeStamp := 100,
                         args := [("_arg0", "GOV_ADDR_00000001")] }

def fxS0 : ChainState := initContract fxInitCtx

def fxStakeArgs (nid amt nt nonce : String) : List (String × String) :=
  [("method", "stakeWithGmSign"), ("node_id", nid), ("amount", amt),
   ("sm2_signature", "SIG"), ("data_hash", "HASH"), ("nonce", nonce),
   ("business_license_hash", "LICENSE_0001"), ("filing_number_hash", "FILING_00001"),
   ("node_type", nt)]

def fxStakeCtx : Ctx := { caller := "STAKER_ADDR_00001", txTimeStamp := 200,
                          args := fxStakeArgs "n1" "10000" "0" "1" }

def fxOut1 : InvokeOut :=
  match invokeContract fxStakeCtx fxS0 with
  | .ok r => r
  | .error _ => { state := fxS0, events := [], payload := "" }

def fxS1 : ChainState := fxOut1.state


def fxPauseCtx : Ctx := { caller := "GOV_ADDR_00000001", txTimeStamp := 300,
                          args := [("method", "pauseContract")] }

def fxPausedOut : InvokeOut :=
  match invokeContract fxPauseCtx fxS1 with
  | .ok r => r
  | .error _ => { state := fxS1, events := [], payload := "" }

/-- A reachable Paused state: init, one consensus stake, pause. -/
def fxPaused : ChainState := fxPausedOut.state

def fxAddValCtx : Ctx := { caller := "OWNER_ADDR_000001", txTimeStamp := 400,
                           args := [("method", "addValidator"), ("validator_address", "VALIDATOR_ADDR_1")] }

/-- An Active node used by handler-level scenarios. -/
def fxActiveNode : Node :=
  { NodeAddress := "ACTIVE_NODE_ADDR1", StakeAmount := 5000, StakeStart := 0,
    ReputationScore := 100, Status := .Active, NodeId := "an1",
    BusinessLicense := "LICENSE_0001", FilingNumber := "FILING_00001",
    ChallengeCount := 0, ChallengesWon := 0, ChallengesLost := 0, LastSeen := 0,
    IsConsensusNode := false, IsThreatSensor := false, AgentVersion := "",
    DeploymentType := "", LastThreatReport := 0, ThreatScore := 0,
    VerifiedThreats := 0, ComplianceZone := "" }

/-- The reporting agent's node in the verification scenarios. -/
def fxAgentNode : Node :=
  { fxActiveNode with NodeAddress := "AGENT_ADDR_0000001", NodeId := "ag1",
                      Status := .Registered, ReputationScore := 100 }

/-- A stored attestation submitted by the agent. -/
def fxAtt : ThreatAttestation :=
  { ID := "rpt1", Timestamp := 500, SourceIP := "9.9.9.9", TargetIP := "1.2.3.4",
    ThreatType := "ddos", ThreatLevel := .Critical, Context := "ctx",
    AgentID := "AGENT_ADDR_0000001", Signature := "", EvidenceHash := "",
    Geolocation := "", NetworkFlow := "" }

/-- A hand-built Paused state rich enough to run every non-staking
mutating handler (the threat-flow handlers need an Active caller, which
the handlers themselves accept in any state they are given). -/
def fxRich : ChainState :=
  { contractState := some "1", owner := some "OWNER_ADDR_000001",
    governance := some "GOV_ADDR_00000001",
    nodes := [("ACTIVE_NODE_ADDR1", fxActiveNode), ("AGENT_ADDR_0000001", fxAgentNode)],
    idToAddr := [("an1", "ACTIVE_NODE_ADDR1"), ("ag1", "AGENT_ADDR_0000001")],
    consensus := some [], partition := some [], edge := some [],
    pendingWithdrawal := [], usedNonces := [],
    validators := [("VALIDATOR_ADDR_1", "1"), ("VALIDATOR_ADDR_2", "1"), ("VALIDATOR_ADDR_3", "1")],
    attestations := [("rpt1", fxAtt)],
    verifStamps := [], dupKeys := [], globalThreatList := none }

def fxVerifyCtx (v : String) (ts : Int) : Ctx :=
  { caller := v, txTimeStamp := ts,
    args := [("method", "verifyThreatReport"), ("report_id", "rpt1")] }

def fxVer1 : ChainState :=
  match invokeContract (fxVerifyCtx "VALIDATOR_ADDR_1" 600) fxRich with
  | .ok r => r.state
  | .error _ => fxRich

def fxVer2 : ChainState :=
  match invokeContract (fxVerifyCtx "VALIDATOR_ADDR_2" 601) fxVer1 with
  | .ok r => r.state
  | .error _ => fxVer1

def fxVer3 : ChainState :=
  match invokeContract (fxVerifyCtx "VALIDATOR_ADDR_3" 602) fxVer2 with
  | .ok r => r.state
  | .error _ => fxVer2

/-- Same verifier twice (for the idempotency analysis). -/
def fxVer1Rep : ChainState :=
  match invokeContract (fxVerifyCtx "VALIDATOR_ADDR_1" 650) fxVer1 with
  | .ok r => r.state
  | .error _ => fxVer1


/-- Project the state out of a handler result (default on error). -/
def resState (r : HRes) (dflt : ChainState) : ChainState :=
  match r with
  | .ok x => x.state
  | .error _ => dflt

/-- The attestation written in the C9 store-fault scenario. -/
def fxFaultAtt : ThreatAttestation :=
  { ID := "threat_9.9.9.9_900", Timestamp := 900, SourceIP := "9.9.9.9",
    TargetIP := "1.2.3.4", ThreatType := "ddos", ThreatLevel := .Critical,
    Context := "observed flood", AgentID := "ACTIVE_NODE_ADDR1", Signature := "",
    EvidenceHash := "", Geolocation := "", NetworkFlow := "" }

/-- submitChallenge scenario context. -/
def fxChalCtx : Ctx :=
  { caller := "ACTIVE_NODE_ADDR1", txTimeStamp := 950,
    args := [("cache_key", "ck"), ("reason", "rsn")] }

/-- C7 scenario: the same caller stakes twice, first as an edge node,
then (fresh node-id) as a partition node. -/
def fxDblCtxE : Ctx := { caller := "DOUBLE_ADDR_00001", txTimeStamp := 700,
                         args := fxStakeArgs "e1" "100" "2" "7" }

def fxDblCtxP : Ctx := { caller := "DOUBLE_ADDR_00001", txTimeStamp := 701,
                         args := fxStakeArgs "p1" "5000" "1" "8" }

def fxDbl1 : ChainState :=
  match invokeContract fxDblCtxE fxS0 with
  | .ok r => r.state
  | .error _ => fxS0

def fxDbl2 : ChainState :=
  match invokeContract fxDblCtxP fxDbl1 with
  | .ok r => r.state
  | .error _ => fxDbl1

/-- 21 distinct addresses filling the consensus list. -/
def fxFullList : List String :=
  (List.range 21).map (fun i => "CONSENSUS_MEMBER_" ++ toString i)

/-- A state whose consensus list is full (used against the cap). -/
def fxFull21 : ChainState :=
  { fxS0 with consensus := some fxFullList }

def fxCapCtx : Ctx := { caller := "LATE_ROOT_ADDR_01", txTimeStamp := 800,
                        args := fxStakeArgs "late1" "10000" "0" "9" }

/-- C9 scenario: an Active node submits a Critical threat report. -/
def fxThreatCtx : Ctx :=
  { caller := "ACTIVE_NODE_ADDR1", txTimeStamp := 900,
    args := [("method", "submitThreatReport"), ("threat_type", "ddos"),
             ("source_ip", "9.9.9.9"), ("target_ip", "1.2.3.4"),
             ("threat_level", "Critical"), ("context", "observed flood")] }


/-- Further invocation contexts used by witnesses. -/
def fxUpdCtx : Ctx :=
  { caller := "VALIDATOR_ADDR_1", txTimeStamp := 960,
    args := [("node_address", "AGENT_ADDR_0000001"), ("reputation_delta", "10")] }

def fxSlashCtx : Ctx :=
  { caller := "GOV_ADDR_00000001", txTimeStamp := 961,
    args := [("node_address", "AGENT_ADDR_0000001"), ("reason", "bad")] }

def fxWdrCtx : Ctx :=
  { caller := "ACTIVE_NODE_ADDR1", txTimeStamp := 700000, args := [("amount", "10")] }

def fxAddVal2Ctx : Ctx :=
  { caller := "OWNER_ADDR_000001", txTimeStamp := 963,
    args := [("validator_address", "VALIDATOR_ADDR_9")] }

def fxPause2Ctx : Ctx :=
  { caller := "GOV_ADDR_00000001", txTimeStamp := 964, args := [] }

def fxResumeCtx : Ctx :=
  { caller := "GOV_ADDR_00000001", txTimeStamp := 970, args := [] }

/-- Project the `InvokeOut` out of a handler result (defaulting to a
fixed output on error); used to name intermediate demo outputs. -/
def resOut (r : HRes) : InvokeOut :=
  match r with
  | .ok x => x
  | .error _ => { state := initContract fxInitCtx, events := [], payload := "" }

/-- The parsed parameters of `fxCapCtx` (node_type 0, amount 10000). -/
def fxCapParams : StakeParams :=
  { nodeId := "late1", amountStr := "10000", nonceStr := "9", nodeTypeStr := "0",
    sm2Signature := "SIG", dataHash := "HASH", businessLicenseHash := "LICENSE_0001",
    filingNumberHash := "FILING_00001", amount := 10000, nonce := 9, nodeType := 0 }

/-- The node record the capped stake attempt would create. -/
def fxCapNode : Node :=
  stakeNodeRec fxCapCtx.caller fxCapParams.nodeId fxCapParams.amount fxCapCtx.txTimeStamp
    fxCapParams.businessLicenseHash fxCapParams.filingNumberHash

/-- The request key of the capped stake attempt. -/
def fxCapRk : String :=
  requestKeyOf fxCapCtx.caller fxCapParams.nodeId fxCapParams.amount
    fxCapCtx.txTimeStamp fxCapParams.nonce

/-- The used-nonce key recorded by the first demo stake. -/
def fxNonceKey : String := "USED_NONCE_" ++ requestKeyOf "STAKER_ADDR_00001" "n1" 10000 200 1

def fxDispCtx : Ctx :=
  { caller := "GOV_ADDR_00000001", txTimeStamp := 980,
    args := [("method", "slashNode"), ("node_address", "AGENT_ADDR_0000001"), ("reason", "x")] }

def fxUnknownCtx : Ctx :=
  { caller := "X", txTimeStamp := 0, args := [("method", "stakeNode")] }

/-- The verification stamp `verifyThreatReport` stores for (report,
verifier). -/
def verifStampOf (c : Ctx) (id : String) : VerifStamp :=
  { verifier := c.caller, verified := true, timestamp := c.txTimeStamp, report_id := id }

/-! ## Derived state-shape predicates (used by the theorems) -/

/-! ## Derived state-shape predicates (used by the theorems) -/

/-- The exact final state of a successful `stakeWithGmSign`: nonce
marked, node saved, and the caller appended to the tier list selected
by node_type (with the consensus-flag re-save for type 0). -/
def StakeShape (c : Ctx) (s : ChainState) (r : InvokeOut) (p : StakeParams) : Prop :=
  let rk := requestKeyOf c.caller p.nodeId p.amount c.txTimeStamp p.nonce
  let node := stakeNodeRec c.caller p.nodeId p.amount c.txTimeStamp
                p.businessLicenseHash p.filingNumberHash
  let s2 := saveNode (setNonceUsed s rk) node
  (p.nodeType = 0 ∧ ∃ l, s.consensus = some l ∧ l.length < 21 ∧ c.caller ∉ l ∧
      r.state = saveNode { s2 with consensus := some (l ++ [c.caller]) }
                  { node with IsConsensusNode := true }) ∨
  (¬ p.nodeType = 0 ∧ p.nodeType = 1 ∧ ∃ l, s.partition = some l ∧ c.caller ∉ l ∧
      r.state = { s2 with partition := some (l ++ [c.caller]) }) ∨
  (¬ p.nodeType = 0 ∧ ¬ p.nodeType = 1 ∧ ∃ l, s.edge = some l ∧ c.caller ∉ l ∧
      r.state = { s2 with edge := some (l ++ [c.caller]) })

/-- The per-node component of the reachable-state invariant: bounded
reputation and no node ever carries status Active (the source never
assigns Active: stake creates Registered, slashing sets Slashed). -/
abbrev NodesOK (s : ChainState) : Prop :=
  ∀ p ∈ s.nodes, p.2.ReputationScore ≤ 1000 ∧ p.2.Status ≠ NodeStatus.Active

/-- Tier-list component of the reachable-state invariant: the
consensus list respects the cap of 21 and every list is
duplicate-free. -/
abbrev TiersOK (s : ChainState) : Prop :=
  (∀ l, s.consensus = some l → l.length ≤ 21 ∧ l.Nodup) ∧
  (∀ l, s.partition = some l → l.Nodup) ∧
  (∀ l, s.edge = some l → l.Nodup)

/-- The inductive invariant of reachable states. -/
abbrev StateInv (s : ChainState) : Prop :=
  NodesOK s ∧ s.attestations = [] ∧ TiersOK s

/-! ## Lemmas about the store primitives -/

theorem lookupA_putA (m : List (String × α)) (k j : String) (v : α) :
    lookupA (putA k v m) j = if k = j then some v else lookupA m j := by
  induction m with
  | nil => by_cases h : k = j <;> simp [putA, lookupA, h]
  | cons p t ih =>
    obtain ⟨k', v'⟩ := p
    by_cases hk : k' = k
    · subst hk
      simp only [putA, if_pos rfl, lookupA]
      by_cases hj : k' = j <;> simp [hj]
    · simp only [putA, if_neg hk, lookupA, ih]
      by_cases hj : k' = j
      · subst hj
        have hkj : ¬ k = k' := fun h => hk h.symm
        simp [hkj]
      · simp [hj]

theorem lookupA_putA_self (m : List (String × α)) (k : String) (v : α) :
    lookupA (putA k v m) k = some v := by
  rw [lookupA_putA]
  simp

theorem lookupA_isSome_putA (m : List (String × α)) (k j : String) (v : α)
    (h : (lookupA m j).isSome) : (lookupA (putA k v m) j).isSome := by
  rw [lookupA_putA]
  by_cases hk : k = j <;> simp [hk, h]

theorem mem_putA {p : String × α} {k : String} {v : α} {m : List (String × α)}
    (h : p ∈ putA k v m) : p = (k, v) ∨ p ∈ m := by
  induction m with
  | nil =>
    simp [putA] at h
    exact .inl h
  | cons q t ih =>
    obtain ⟨k', v'⟩ := q
    simp only [putA] at h
    split at h
    · rcases List.mem_cons.mp h with h1 | h1
      · exact .inl h1
      · exact .inr (List.mem_cons.mpr (.inr h1))
    · rcases List.mem_cons.mp h with h1 | h1
      · exact .inr (List.mem_cons.mpr (.inl h1))
      · rcases ih h1 with h2 | h2
        · exact .inl h2
        · exact .inr (List.mem_cons.mpr (.inr h2))

theorem lookupA_mem {m : List (String × α)} {k : String} {v : α}
    (h : lookupA m k = some v) : (k, v) ∈ m := by
  induction m with
  | nil => simp [lookupA] at h
  | cons q t ih =>
    obtain ⟨k', v'⟩ := q
    simp only [lookupA] at h
    split at h
    · rename_i heq
      injection h with h
      subst h
      subst heq
      exact List.mem_cons_self ..
    · exact List.mem_cons_of_mem _ (ih h)

/-! ## Per-handler structural lemmas -/

theorem getNodeInfo_ok_state (h : getNodeInfo c s = .ok r) : r.state = s := by
  unfold getNodeInfo at h
  repeat' split at h
  all_goals first
    | exact Except.noConfusion h
    | (injection h with h; subst h; rfl)

theorem getContractStats_ok_state (h : getContractStats c s = .ok r) : r.state = s := by
  unfold getContractStats at h
  repeat' split at h
  all_goals first
    | exact Except.noConfusion h
    | (injection h with h; subst h; rfl)

theorem getThreatReport_ok_state (h : getThreatReport c s = .ok r) : r.state = s := by
  unfold getThreatReport at h
  repeat' split at h
  all_goals first
    | exact Except.noConfusion h
    | (injection h with h; subst h; rfl)

theorem getGlobalThreatList_ok_state (h : getGlobalThreatList c s = .ok r) : r.state = s := by
  unfold getGlobalThreatList at h
  repeat' split at h
  all_goals first
    | exact Except.noConfusion h
    | (injection h with h; subst h; rfl)

theorem submitChallenge_ok_state (h : submitChallenge c s = .ok r) : r.state = s := by
  unfold submitChallenge at h
  repeat' split at h
  all_goals first
    | exact Except.noConfusion h
    | (injection h with h; subst h; rfl)

theorem removeCons_ok {s : ChainState} {a : String} {s' : ChainState}
    (h : removeNodeFromConsensusList s a = .ok s') :
    ∃ l, s.consensus = some l ∧ s' = { s with consensus := some (l.filter (· ≠ a)) } := by
  unfold removeNodeFromConsensusList at h
  split at h
  · exact Except.noConfusion h
  · rename_i l heq
    injection h with h
    exact ⟨l, heq, h.symm⟩

theorem addGTL_ok {s : ChainState} {ip : String} {lv : Nat} {ts : Int} {s' : ChainState}
    (h : addToGlobalThreatList s ip lv ts = .ok s') :
    ∃ nl, s' = { s with globalThreatList := some nl } := by
  unfold addToGlobalThreatList at h
  injection h with h
  exact ⟨_, h.symm⟩

theorem updateReputation_ok_nonces (h : updateReputation c s = .ok r) :
    r.state.usedNonces = s.usedNonces := by
  unfold updateReputation at h
  repeat' split at h
  all_goals first
    | exact Except.noConfusion h
    | (injection h with h; subst h; rfl)

theorem slashNode_ok_nonces (h : slashNode c s = .ok r) :
    r.state.usedNonces = s.usedNonces := by
  unfold slashNode at h
  dsimp only at h
  repeat' split at h
  all_goals first
    | exact Except.noConfusion h
    | (injection h with h; subst h
       first
         | rfl
         | (obtain ⟨l, hl, rfl⟩ := removeCons_ok (by assumption); rfl))

theorem requestWithdrawal_ok_nonces (h : requestWithdrawal c s = .ok r) :
    r.state.usedNonces = s.usedNonces := by
  unfold requestWithdrawal at h
  repeat' split at h
  all_goals first
    | exact Except.noConfusion h
    | (injection h with h; subst h; rfl)

theorem addValidator_ok_nonces (h : addValidator c s = .ok r) :
    r.state.usedNonces = s.usedNonces := by
  unfold addValidator at h
  repeat' split at h
  all_goals first
    | exact Except.noConfusion h
    | (injection h with h; subst h; rfl)

theorem pauseContract_ok_nonces (h : pauseContract c s = .ok r) :
    r.state.usedNonces = s.usedNonces := by
  unfold pauseContract at h
  repeat' split at h
  all_goals first
    | exact Except.noConfusion h
    | (injection h with h; subst h; rfl)

theorem resumeContract_ok_nonces (h : resumeContract c s = .ok r) :
    r.state.usedNonces = s.usedNonces := by
  unfold resumeContract at h
  repeat' split at h
  all_goals first
    | exact Except.noConfusion h
    | (injection h with h; subst h; rfl)

theorem validateThreatReport_ok {s : ChainState} {a : ThreatAttestation} {s' : ChainState}
    (h : validateThreatReport s a = .ok s') :
    s' = { s with dupKeys := putA (dupKeyOf a.SourceIP a.ThreatType a.Timestamp) "1" s.dupKeys } := by
  unfold validateThreatReport at h
  repeat' split at h
  all_goals first
    | exact Except.noConfusion h
    | (injection h with h; exact h.symm)

theorem submitThreatReport_ok_nonces (h : submitThreatReport c s = .ok r) :
    r.state.usedNonces = s.usedNonces := by
  unfold submitThreatReport at h
  dsimp only at h
  repeat' split at h
  all_goals first
    | exact Except.noConfusion h
    | (injection h with h; subst h
       obtain rfl := validateThreatReport_ok (by assumption)
       first
         | rfl
         | (obtain ⟨nl, rfl⟩ := addGTL_ok (by assumption); rfl))

theorem verifyThreatReport_ok_nonces (h : verifyThreatReport c s = .ok r) :
    r.state.usedNonces = s.usedNonces := by
  unfold verifyThreatReport at h
  dsimp only at h
  repeat' split at h
  all_goals first
    | exact Except.noConfusion h
    | (injection h with h; subst h; rfl)

theorem addCons_ok {s : ChainState} {a : String} {s' : ChainState}
    (h : addNodeToConsensusList s a = .ok s') :
    ∃ l, s.consensus = some l ∧ l.length < 21 ∧ a ∉ l ∧
      s' = { s with consensus := some (l ++ [a]) } := by
  unfold addNodeToConsensusList at h
  repeat' split at h
  all_goals first
    | exact Except.noConfusion h
    | (injection h with h
       exact ⟨_, by assumption, by omega, by assumption, h.symm⟩)

theorem addPart_ok {s : ChainState} {a : String} {s' : ChainState}
    (h : addNodeToPartitionList s a = .ok s') :
    ∃ l, s.partition = some l ∧ a ∉ l ∧
      s' = { s with partition := some (l ++ [a]) } := by
  unfold addNodeToPartitionList at h
  repeat' split at h
  all_goals first
    | exact Except.noConfusion h
    | (injection h with h
       exact ⟨_, by assumption, by assumption, h.symm⟩)

theorem addEdge_ok {s : ChainState} {a : String} {s' : ChainState}
    (h : addNodeToEdgeList s a = .ok s') :
    ∃ l, s.edge = some l ∧ a ∉ l ∧
      s' = { s with edge := some (l ++ [a]) } := by
  unfold addNodeToEdgeList at h
  repeat' split at h
  all_goals first
    | exact Except.noConfusion h
    | (injection h with h
       exact ⟨_, by assumption, by assumption, h.symm⟩)


theorem stakeFinish_ok {c : Ctx} {nodeId : String} {amount : Nat} {node : Node}
    {s2 : ChainState} {nodeType : Nat} {r : InvokeOut}
    (h : stakeFinish c nodeId amount node s2 nodeType = .ok r) :
    r.events = [{ name := "NodeStaked", data := [nodeId, c.caller, toString amount] }] ∧
    r.payload = "Node staked successfully" ∧
    ((nodeType = 0 ∧ ∃ l, s2.consensus = some l ∧ l.length < 21 ∧ c.caller ∉ l ∧
        r.state = saveNode { s2 with consensus := some (l ++ [c.caller]) }
                    { node with IsConsensusNode := true }) ∨
     (¬ nodeType = 0 ∧ nodeType = 1 ∧ ∃ l, s2.partition = some l ∧ c.caller ∉ l ∧
        r.state = { s2 with partition := some (l ++ [c.caller]) }) ∨
     (¬ nodeType = 0 ∧ ¬ nodeType = 1 ∧ ∃ l, s2.edge = some l ∧ c.caller ∉ l ∧
        r.state = { s2 with edge := some (l ++ [c.caller]) })) := by
  unfold stakeFinish at h
  repeat' split at h
  all_goals first
    | exact Except.noConfusion h
    | (obtain ⟨l, hl, hlen, hmem, rfl⟩ := addCons_ok (by assumption)
       injection h with h; subst h
       exact ⟨rfl, rfl, Or.inl ⟨by assumption, l, hl, hlen, hmem, rfl⟩⟩)
    | (obtain ⟨l, hl, hmem, rfl⟩ := addPart_ok (by assumption)
       injection h with h; subst h
       exact ⟨rfl, rfl, Or.inr (Or.inl ⟨by assumption, by assumption, l, hl, hmem, rfl⟩)⟩)
    | (obtain ⟨l, hl, hmem, rfl⟩ := addEdge_ok (by assumption)
       injection h with h; subst h
       exact ⟨rfl, rfl, Or.inr (Or.inr ⟨by assumption, by assumption, l, hl, hmem, rfl⟩)⟩)

theorem stakeChecked_ok {c : Ctx} {s : ChainState} {p : StakeParams} {r : InvokeOut}
    (h : stakeChecked c s p = .ok r) :
    StakeShape c s r p := by
  unfold stakeChecked at h
  dsimp only at h
  repeat' split at h
  all_goals first
    | exact Except.noConfusion h
    | exact (stakeFinish_ok h).2.2

/-- Everything a successful stake invocation implies: Active contract
state, parsed arguments, a fresh nonce, the nonce marking in the
result, and the tier-specific result shape. -/
theorem stakeWithGmSign_ok_facts {c : Ctx} {s : ChainState} {r : InvokeOut}
    (h : stakeWithGmSign c s = .ok r) :
    ∃ (st : Int) (p : StakeParams),
      getContractState s = .ok st ∧ (¬ st ≠ 0) ∧
      stakeArgs c = .ok p ∧
      ¬ isNonceUsed s (requestKeyOf c.caller p.nodeId p.amount c.txTimeStamp p.nonce) = true ∧
      StakeShape c s r p := by
  unfold stakeWithGmSign at h
  repeat' split at h
  all_goals first
    | exact Except.noConfusion h
    | exact ⟨_, _, by assumption, by assumption, by assumption, by assumption,
        stakeChecked_ok h⟩

/-! ## Invariant-preservation lemmas -/

theorem nodes_pred_putA (P : Node → Prop) (m : List (String × Node)) (k : String) (v : Node)
    (hm : ∀ p ∈ m, P p.2) (hv : P v) : ∀ p ∈ putA k v m, P p.2 := by
  intro p hp
  rcases mem_putA hp with h | h
  · rw [h]
    exact hv
  · exact hm p h

theorem nodup_append_single {α : Type} {l : List α} {a : α} (h : l.Nodup) (ha : a ∉ l) :
    (l ++ [a]).Nodup := by
  rw [List.nodup_append]
  exact ⟨h, List.nodup_singleton a,
    fun x hx hxa => ha (by rwa [List.mem_singleton.mp hxa] at hx)⟩

theorem getNodeByAddress_ok {s : ChainState} {a : String} {n : Node}
    (h : getNodeByAddress s a = .ok n) : lookupA s.nodes a = some n := by
  unfold getNodeByAddress at h
  split at h
  · exact Except.noConfusion h
  · injection h with h
    rename_i heq
    rw [heq, h]

theorem onlyActiveNode_ok {s : ChainState} {a : String} {u : Unit}
    (h : onlyActiveNode s a = .ok u) :
    ∃ n, lookupA s.nodes a = some n ∧ n.Status = NodeStatus.Active := by
  unfold onlyActiveNode at h
  repeat' split at h
  all_goals first
    | exact Except.noConfusion h
    | (rename_i hstat
       exact ⟨_, getNodeByAddress_ok (by assumption), by
         rcases Decidable.not_not.mp hstat with h'
         exact h'⟩)

theorem applyRules_rep (n : Node) :
    (applyReputationRules n).ReputationScore = n.ReputationScore := by
  unfold applyReputationRules
  repeat' split
  all_goals rfl

theorem applyRules_status (n : Node) :
    (applyReputationRules n).Status = n.Status := by
  unfold applyReputationRules
  repeat' split
  all_goals rfl

theorem clamp_le (x : Int) :
    (if (if x < 0 then 0 else x) > 1000 then (1000 : Int) else (if x < 0 then 0 else x)).toNat ≤ 1000 := by
  split_ifs <;> omega

theorem stake_inv {c : Ctx} {s : ChainState} {r : InvokeOut}
    (hInv : StateInv s) (h : stakeWithGmSign c s = .ok r) : StateInv r.state := by
  obtain ⟨hN, hA, hC, hP, hE⟩ := hInv
  obtain ⟨st, p, -, -, -, -, hshape⟩ := stakeWithGmSign_ok_facts h
  have hnode : (stakeNodeRec c.caller p.nodeId p.amount c.txTimeStamp
      p.businessLicenseHash p.filingNumberHash).ReputationScore ≤ 1000 ∧
      (stakeNodeRec c.caller p.nodeId p.amount c.txTimeStamp
      p.businessLicenseHash p.filingNumberHash).Status ≠ NodeStatus.Active := by
    exact ⟨by norm_num [stakeNodeRec], by simp [stakeNodeRec]⟩
  rcases hshape with ⟨-, l, hl, hlen, hmem, hr⟩ | ⟨-, -, l, hl, hmem, hr⟩ | ⟨-, -, l, hl, hmem, hr⟩ <;> rw [hr]
  · refine ⟨?_, hA, ?_, hP, hE⟩
    · exact nodes_pred_putA (fun n => n.ReputationScore ≤ 1000 ∧ n.Status ≠ NodeStatus.Active) _ _ _ (nodes_pred_putA (fun n => n.ReputationScore ≤ 1000 ∧ n.Status ≠ NodeStatus.Active) _ _ _ hN hnode) ⟨hnode.1, hnode.2⟩
    · intro l' hl'
      injection hl' with hl'
      rw [← hl']
      obtain ⟨h1, h2⟩ := hC l hl
      refine ⟨by simp; omega, nodup_append_single h2 hmem⟩
  · refine ⟨?_, hA, hC, ?_, hE⟩
    · exact nodes_pred_putA (fun n => n.ReputationScore ≤ 1000 ∧ n.Status ≠ NodeStatus.Active) _ _ _ hN hnode
    · intro l' hl'
      injection hl' with hl'
      rw [← hl']
      exact nodup_append_single (hP l hl) hmem
  · refine ⟨?_, hA, hC, hP, ?_⟩
    · exact nodes_pred_putA (fun n => n.ReputationScore ≤ 1000 ∧ n.Status ≠ NodeStatus.Active) _ _ _ hN hnode
    · intro l' hl'
      injection hl' with hl'
      rw [← hl']
      exact nodup_append_single (hE l hl) hmem

theorem updateReputation_inv {c : Ctx} {s : ChainState} {r : InvokeOut}
    (hInv : StateInv s) (h : updateReputation c s = .ok r) : StateInv r.state := by
  unfold updateReputation at h
  dsimp only at h
  repeat' split at h
  all_goals first
    | exact Except.noConfusion h
    | (injection h with h; subst h
       have hn := getNodeByAddress_ok (by assumption)
       have hmem := lookupA_mem hn
       refine ⟨?_, hInv.2.1, hInv.2.2⟩
       refine nodes_pred_putA (fun n => n.ReputationScore ≤ 1000 ∧ n.Status ≠ NodeStatus.Active)
         _ _ _ hInv.1 ⟨?_, ?_⟩
       · rw [applyRules_rep]
         dsimp only
         omega
       · rw [applyRules_status]
         exact (hInv.1 _ hmem).2)

theorem slashNode_inv {c : Ctx} {s : ChainState} {r : InvokeOut}
    (hInv : StateInv s) (h : slashNode c s = .ok r) : StateInv r.state := by
  unfold slashNode at h
  dsimp only at h
  repeat' split at h
  all_goals first
    | exact Except.noConfusion h
    | (injection h with h; subst h
       have hn := getNodeByAddress_ok (by assumption)
       have hmem := lookupA_mem hn
       first
       | -- consensus-member branch, removal succeeded
         (obtain ⟨l, hl, rfl⟩ := removeCons_ok (by assumption)
          refine ⟨?_, hInv.2.1, ?_, hInv.2.2.2.1, hInv.2.2.2.2⟩
          · refine nodes_pred_putA (fun n => n.ReputationScore ≤ 1000 ∧ n.Status ≠ NodeStatus.Active)
              _ _ _ (nodes_pred_putA (fun n => n.ReputationScore ≤ 1000 ∧ n.Status ≠ NodeStatus.Active)
                _ _ _ hInv.1 ⟨(hInv.1 _ hmem).1, by simp⟩)
              ⟨(hInv.1 _ hmem).1, by simp⟩
          · intro l' hl'
            injection hl' with hl'
            rw [← hl']
            obtain ⟨h1, h2⟩ := hInv.2.2.1 l hl
            exact ⟨le_trans (List.length_filter_le _ _) h1, h2.filter _⟩)
       | -- consensus-member branch, removal returned an error (kept state)
         (refine ⟨?_, hInv.2.1, hInv.2.2⟩
          refine nodes_pred_putA (fun n => n.ReputationScore ≤ 1000 ∧ n.Status ≠ NodeStatus.Active)
            _ _ _ (nodes_pred_putA (fun n => n.ReputationScore ≤ 1000 ∧ n.Status ≠ NodeStatus.Active)
              _ _ _ hInv.1 ⟨(hInv.1 _ hmem).1, by simp⟩)
            ⟨(hInv.1 _ hmem).1, by simp⟩)
       | -- not a consensus member
         (refine ⟨?_, hInv.2.1, hInv.2.2⟩
          refine nodes_pred_putA (fun n => n.ReputationScore ≤ 1000 ∧ n.Status ≠ NodeStatus.Active)
            _ _ _ hInv.1 ⟨(hInv.1 _ hmem).1, by simp⟩))

theorem requestWithdrawal_inv {c : Ctx} {s : ChainState} {r : InvokeOut}
    (hInv : StateInv s) (h : requestWithdrawal c s = .ok r) : StateInv r.state := by
  unfold requestWithdrawal at h
  dsimp only at h
  repeat' split at h
  all_goals first
    | exact Except.noConfusion h
    | (injection h with h; subst h
       have hn := getNodeByAddress_ok (by assumption)
       have hmem := lookupA_mem hn
       refine ⟨?_, hInv.2.1, hInv.2.2⟩
       exact nodes_pred_putA (fun n => n.ReputationScore ≤ 1000 ∧ n.Status ≠ NodeStatus.Active)
         _ _ _ hInv.1 ⟨(hInv.1 _ hmem).1, (hInv.1 _ hmem).2⟩)

theorem addValidator_inv {c : Ctx} {s : ChainState} {r : InvokeOut}
    (hInv : StateInv s) (h : addValidator c s = .ok r) : StateInv r.state := by
  unfold addValidator at h
  repeat' split at h
  all_goals first
    | exact Except.noConfusion h
    | (injection h with h; subst h
       exact ⟨hInv.1, hInv.2.1, hInv.2.2⟩)

theorem pauseContract_inv {c : Ctx} {s : ChainState} {r : InvokeOut}
    (hInv : StateInv s) (h : pauseContract c s = .ok r) : StateInv r.state := by
  unfold pauseContract at h
  repeat' split at h
  all_goals first
    | exact Except.noConfusion h
    | (injection h with h; subst h
       exact ⟨hInv.1, hInv.2.1, hInv.2.2⟩)

theorem resumeContract_inv {c : Ctx} {s : ChainState} {r : InvokeOut}
    (hInv : StateInv s) (h : resumeContract c s = .ok r) : StateInv r.state := by
  unfold resumeContract at h
  repeat' split at h
  all_goals first
    | exact Except.noConfusion h
    | (injection h with h; subst h
       exact ⟨hInv.1, hInv.2.1, hInv.2.2⟩)

theorem submitThreatReport_not_ok_inv {c : Ctx} {s : ChainState} {r : InvokeOut}
    (hInv : StateInv s) (h : submitThreatReport c s = .ok r) : False := by
  unfold submitThreatReport at h
  split at h
  · exact Except.noConfusion h
  · obtain ⟨n, hn, hstat⟩ := onlyActiveNode_ok (by assumption)
    exact (hInv.1 _ (lookupA_mem hn)).2 hstat

theorem verifyThreatReport_not_ok_inv {c : Ctx} {s : ChainState} {r : InvokeOut}
    (hInv : StateInv s) (h : verifyThreatReport c s = .ok r) : False := by
  unfold verifyThreatReport at h
  rw [hInv.2.1] at h
  simp only [lookupA] at h
  repeat' split at h
  all_goals exact Except.noConfusion h

theorem initContract_inv (c : Ctx) : StateInv (initContract c) := by
  refine ⟨?_, rfl, ?_, ?_, ?_⟩
  · intro p hp
    simp [initContract] at hp
  · intro l hl
    injection hl with hl
    rw [← hl]
    exact ⟨by simp, List.nodup_nil⟩
  · intro l hl
    injection hl with hl
    rw [← hl]
    exact List.nodup_nil
  · intro l hl
    injection hl with hl
    rw [← hl]
    exact List.nodup_nil

/-- Dispatch elimination: a successful invocation is a successful run
of exactly one recognized handler. -/
theorem invoke_cases {c : Ctx} {s : ChainState} {r : InvokeOut}
    (h : invokeContract c s = .ok r) :
    stakeWithGmSign c s = .ok r ∨
    getNodeInfo c s = .ok r ∨
    getContractStats c s = .ok r ∨
    submitChallenge c s = .ok r ∨
    updateReputation c s = .ok r ∨
    slashNode c s = .ok r ∨
    requestWithdrawal c s = .ok r ∨
    addValidator c s = .ok r ∨
    pauseContract c s = .ok r ∨
    resumeContract c s = .ok r ∨
    submitThreatReport c s = .ok r ∨
    verifyThreatReport c s = .ok r ∨
    getThreatReport c s = .ok r ∨
    getGlobalThreatList c s = .ok r := by
  unfold invokeContract at h
  dsimp only at h
  by_cases h0 : (lookupA c.args "method").getD "" = ""
  · rw [if_pos h0] at h; exact Except.noConfusion h
  · rw [if_neg h0] at h
    by_cases h1 : (lookupA c.args "method").getD "" = "stakeWithGmSign"
    · rw [if_pos h1] at h; exact Or.inl h
    · rw [if_neg h1] at h
      by_cases h2 : (lookupA c.args "method").getD "" = "getNodeInfo"
      · rw [if_pos h2] at h; exact Or.inr (Or.inl h)
      · rw [if_neg h2] at h
        by_cases h3 : (lookupA c.args "method").getD "" = "getContractStats"
        · rw [if_pos h3] at h; exact Or.inr (Or.inr (Or.inl h))
        · rw [if_neg h3] at h
          by_cases h4 : (lookupA c.args "method").getD "" = "submitChallenge"
          · rw [if_pos h4] at h; exact Or.inr (Or.inr (Or.inr (Or.inl h)))
          · rw [if_neg h4] at h
            by_cases h5 : (lookupA c.args "method").getD "" = "updateReputation"
            · rw [if_pos h5] at h; exact Or.inr (Or.inr (Or.inr (Or.inr (Or.inl h))))
            · rw [if_neg h5] at h
              by_cases h6 : (lookupA c.args "method").getD "" = "slashNode"
              · rw [if_pos h6] at h; exact Or.inr (Or.inr (Or.inr (Or.inr (Or.inr (Or.inl h)))))
              · rw [if_neg h6] at h
                by_cases h7 : (lookupA c.args "method").getD "" = "requestWithdrawal"
                · rw [if_pos h7] at h; exact Or.inr (Or.inr (Or.inr (Or.inr (Or.inr (Or.inr (Or.inl h))))))
                · rw [if_neg h7] at h
                  by_cases h8 : (lookupA c.args "method").getD "" = "addValidator"
                  · rw [if_pos h8] at h; exact Or.inr (Or.inr (Or.inr (Or.inr (Or.inr (Or.inr (Or.inr (Or.inl h)))))))
                  · rw [if_neg h8] at h
                    by_cases h9 : (lookupA c.args "method").getD "" = "pauseContract"
                    · rw [if_pos h9] at h; exact Or.inr (Or.inr (Or.inr (Or.inr (Or.inr (Or.inr (Or.inr (Or.inr (Or.inl h))))))))
                    · rw [if_neg h9] at h
                      by_cases h10 : (lookupA c.args "method").getD "" = "resumeContract"
                      · rw [if_pos h10] at h; exact Or.inr (Or.inr (Or.inr (Or.inr (Or.inr (Or.inr (Or.inr (Or.inr (Or.inr (Or.inl h)))))))))
                      · rw [if_neg h10] at h
                        by_cases h11 : (lookupA c.args "method").getD "" = "submitThreatReport"
                        · rw [if_pos h11] at h; exact Or.inr (Or.inr (Or.inr (Or.inr (Or.inr (Or.inr (Or.inr (Or.inr (Or.inr (Or.inr (Or.inl h))))))))))
                        · rw [if_neg h11] at h
                          by_cases h12 : (lookupA c.args "method").getD "" = "verifyThreatReport"
                          · rw [if_pos h12] at h; exact Or.inr (Or.inr (Or.inr (Or.inr (Or.inr (Or.inr (Or.inr (Or.inr (Or.inr (Or.inr (Or.inr (Or.inl h)))))))))))
                          · rw [if_neg h12] at h
                            by_cases h13 : (lookupA c.args "method").getD "" = "getThreatReport"
                            · rw [if_pos h13] at h; exact Or.inr (Or.inr (Or.inr (Or.inr (Or.inr (Or.inr (Or.inr (Or.inr (Or.inr (Or.inr (Or.inr (Or.inr (Or.inl h))))))))))))
                            · rw [if_neg h13] at h
                              by_cases h14 : (lookupA c.args "method").getD "" = "getGlobalThreatList"
                              · rw [if_pos h14] at h; exact Or.inr (Or.inr (Or.inr (Or.inr (Or.inr (Or.inr (Or.inr (Or.inr (Or.inr (Or.inr (Or.inr (Or.inr (Or.inr (h)))))))))))))
                              · rw [if_neg h14] at h
                                exact Except.noConfusion h

theorem invoke_inv {c : Ctx} {s : ChainState} {r : InvokeOut}
    (hInv : StateInv s) (h : invokeContract c s = .ok r) : StateInv r.state := by
  rcases invoke_cases h with h|h|h|h|h|h|h|h|h|h|h|h|h|h
  exacts [stake_inv hInv h, (getNodeInfo_ok_state h) ▸ hInv,
    (getContractStats_ok_state h) ▸ hInv, (submitChallenge_ok_state h) ▸ hInv,
    updateReputation_inv hInv h, slashNode_inv hInv h, requestWithdrawal_inv hInv h,
    addValidator_inv hInv h, pauseContract_inv hInv h, resumeContract_inv hInv h,
    absurd h (fun h => submitThreatReport_not_ok_inv hInv h),
    absurd h (fun h => verifyThreatReport_not_ok_inv hInv h),
    (getThreatReport_ok_state h) ▸ hInv, (getGlobalThreatList_ok_state h) ▸ hInv]
/-- Every reachable state satisfies the inductive invariant. -/
theorem reachable_inv {s : ChainState} (h : Reachable s) : StateInv s := by
  induction h with
  | init c => exact initContract_inv c
  | step _ hstep ih => exact invoke_inv ih hstep

theorem stakeShape_fields {c : Ctx} {s : ChainState} {r : InvokeOut} {p : StakeParams}
    (hs : StakeShape c s r p) :
    r.state.contractState = s.contractState ∧
    r.state.usedNonces =
      putA ("USED_NONCE_" ++ requestKeyOf c.caller p.nodeId p.amount c.txTimeStamp p.nonce)
        "used" s.usedNonces ∧
    r.state.attestations = s.attestations := by
  rcases hs with ⟨-, l, -, -, -, hr⟩ | ⟨-, -, l, -, -, hr⟩ | ⟨-, -, l, -, -, hr⟩ <;>
    rw [hr] <;> exact ⟨rfl, rfl, rfl⟩

theorem getContractState_eq {s s' : ChainState} (h : s'.contractState = s.contractState) :
    getContractState s' = getContractState s := by
  unfold getContractState
  rw [h]

/-- Replaying an accepted stake payload is rejected by the nonce
register. -/
theorem stake_replay {c : Ctx} {s : ChainState} {r : InvokeOut}
    (h : stakeWithGmSign c s = .ok r) :
    stakeWithGmSign c r.state = .error "nonce already used" := by
  obtain ⟨st, p, hcs, hst, hargs, -, hshape⟩ := stakeWithGmSign_ok_facts h
  obtain ⟨hcseq, hnonce, -⟩ := stakeShape_fields hshape
  have hst0 : st = 0 := Decidable.not_not.mp hst
  subst hst0
  have hused : isNonceUsed r.state (requestKeyOf c.caller p.nodeId p.amount c.txTimeStamp p.nonce) = true := by
    unfold isNonceUsed
    rw [hnonce, lookupA_putA_self]
    rfl
  unfold stakeWithGmSign
  rw [getContractState_eq hcseq, hcs]
  simp only [hargs, hused]
  norm_num

theorem invoke_nonces_grow {c : Ctx} {s : ChainState} {r : InvokeOut}
    (h : invokeContract c s = .ok r) (k : String)
    (hk : (lookupA s.usedNonces k).isSome) : (lookupA r.state.usedNonces k).isSome := by
  rcases invoke_cases h with h|h|h|h|h|h|h|h|h|h|h|h|h|h
  · obtain ⟨st, p, -, -, -, -, hshape⟩ := stakeWithGmSign_ok_facts h
    obtain ⟨-, hnonce, -⟩ := stakeShape_fields hshape
    rw [hnonce]
    exact lookupA_isSome_putA _ _ _ _ hk
  · rw [getNodeInfo_ok_state h]; exact hk
  · rw [getContractStats_ok_state h]; exact hk
  · rw [submitChallenge_ok_state h]; exact hk
  · rw [updateReputation_ok_nonces h]; exact hk
  · rw [slashNode_ok_nonces h]; exact hk
  · rw [requestWithdrawal_ok_nonces h]; exact hk
  · rw [addValidator_ok_nonces h]; exact hk
  · rw [pauseContract_ok_nonces h]; exact hk
  · rw [resumeContract_ok_nonces h]; exact hk
  · rw [submitThreatReport_ok_nonces h]; exact hk
  · rw [verifyThreatReport_ok_nonces h]; exact hk
  · rw [getThreatReport_ok_state h]; exact hk
  · rw [getGlobalThreatList_ok_state h]; exact hk

/-! ## Claim theorems -/

/-- Claim C2: in every reachable state, every stored node record's
reputation score lies in [0, 1000].  (The score is a Go uint64,
modelled as `Nat`, so the lower bound is explicit but automatic.)
`updateReputation` clamps to [0, 1000]; the unclamped `+= 5` credit in
`verifyThreatReport` never executes on a reachable state, because no
reachable state stores a node with status Active, hence
`submitThreatReport` always fails and no attestation ever exists for
`verifyThreatReport` to credit. -/
theorem C2_reputation_bounds (s : ChainState) (hs : Reachable s) :
    ∀ p ∈ s.nodes, 0 ≤ p.2.ReputationScore ∧ p.2.ReputationScore ≤ 1000 := by
  intro p hp
  exact ⟨Nat.zero_le _, ((reachable_inv hs).1 p hp).1⟩

/-- Witness for C2 at the reachable state after one successful stake:
the staker's stored reputation is within bounds. -/
theorem C2_reputation_bounds_witness :
    (lookupA fxS1.nodes "STAKER_ADDR_00001").map
      (fun n => decide (0 ≤ n.ReputationScore ∧ n.ReputationScore ≤ 1000)) = some true := by
  have hr : Reachable fxS1 :=
    Reachable.step (Reachable.init fxInitCtx) (by decide : invokeContract fxStakeCtx (initContract fxInitCtx) = .ok fxOut1)
  have h := C2_reputation_bounds fxS1 hr
  cases hl : lookupA fxS1.nodes "STAKER_ADDR_00001" with
  | none => exact absurd hl (by decide)
  | some n =>
    have := h _ (lookupA_mem hl)
    simp [this]

/-- Claim C5: staking is replay-safe.  (a) If a stake invocation
succeeds, re-submitting the identical payload (same caller, node-id,
amount, timestamp, nonce — i.e. the same context) against the resulting
state is rejected with "nonce already used"; by the host's
transactional semantics the rejected invocation produces no state
delta.  (b) Across every successful invocation of any method, the
used-nonce set only grows. -/
theorem C5_replay_safe :
    (∀ (c : Ctx) (s : ChainState) (r : InvokeOut), stakeWithGmSign c s = .ok r →
      stakeWithGmSign c r.state = .error "nonce already used") ∧
    (∀ (c : Ctx) (s : ChainState) (r : InvokeOut) (k : String), invokeContract c s = .ok r →
      (lookupA s.usedNonces k).isSome → (lookupA r.state.usedNonces k).isSome) :=
  ⟨fun _ _ _ h => stake_replay h, fun _ _ _ k h hk => invoke_nonces_grow h k hk⟩

/-- Witness for C5: the demo stake succeeds, its exact replay is
rejected, and the consumed nonce key survives a later successful
invocation (the pause). -/
theorem C5_replay_safe_witness :
    stakeWithGmSign fxStakeCtx fxS1 = .error "nonce already used" ∧
    (lookupA fxPaused.usedNonces (requestKeyOf "STAKER_ADDR_00001" "n1" 10000 200 1 |> ("USED_NONCE_" ++ ·))).isSome = true := by
  constructor
  · exact C5_replay_safe.1 fxStakeCtx fxS0 fxOut1 (by decide)
  · have h := C5_replay_safe.2 fxPauseCtx fxS1 fxPausedOut
      ("USED_NONCE_" ++ requestKeyOf "STAKER_ADDR_00001" "n1" 10000 200 1)
      (by decide) (by decide)
    simpa using h

/-- Claim C7 counterexample: tier disjointness fails on the code.  The
same caller stakes twice (fresh node-id, different node_type) in a
reachable run: after staking as an edge node and again as a partition
node, the address sits in both tier lists, so the lists are not
pairwise disjoint. -/
theorem C7_counterexample :
    Reachable fxDbl2 ∧
    fxDbl2.edge = some ["DOUBLE_ADDR_00001"] ∧
    fxDbl2.partition = some ["DOUBLE_ADDR_00001"] := by
  refine ⟨?_, by decide, by decide⟩
  have h1 : invokeContract fxDblCtxE (initContract fxInitCtx) =
      .ok (resOut (invokeContract fxDblCtxE fxS0)) := by decide
  have h2 : invokeContract fxDblCtxP fxDbl1 =
      .ok (resOut (invokeContract fxDblCtxP fxDbl1)) := by decide
  exact Reachable.step (Reachable.step (Reachable.init fxInitCtx) h1) h2

/-- Claim C7 (amended): each individual tier list is duplicate-free in
every reachable state (each insertion routine rejects an address
already in its own list), but cross-list disjointness does not hold —
see the counterexample, produced by a second stake of the same caller
with a fresh node-id and a different node_type. -/
theorem C7_amended_nodup (s : ChainState) (hs : Reachable s) :
    (∀ l, s.consensus = some l → l.Nodup) ∧
    (∀ l, s.partition = some l → l.Nodup) ∧
    (∀ l, s.edge = some l → l.Nodup) := by
  obtain ⟨-, -, hC, hP, hE⟩ := reachable_inv hs
  exact ⟨fun l hl => (hC l hl).2, hP, hE⟩

/-- Witness for the amended C7 at the double-stake state: the edge list
it stores is duplicate-free. -/
theorem C7_amended_nodup_witness :
    fxDbl2.edge = some ["DOUBLE_ADDR_00001"] ∧ List.Nodup ["DOUBLE_ADDR_00001"] := by
  constructor
  · decide
  · have h1 : invokeContract fxDblCtxE (initContract fxInitCtx) =
        .ok (resOut (invokeContract fxDblCtxE fxS0)) := by decide
    have h2 : invokeContract fxDblCtxP fxDbl1 =
        .ok (resOut (invokeContract fxDblCtxP fxDbl1)) := by decide
    have hr : Reachable fxDbl2 :=
      Reachable.step (Reachable.step (Reachable.init fxInitCtx) h1) h2
    exact (C7_amended_nodup fxDbl2 hr).2.2 _ (by decide)

/-- Claim C8 counterexample: the dispatcher does not recognize
"stakeNode" — the staking handler is registered under
"stakeWithGmSign" only, so a "stakeNode" invocation returns the
unknown-method error. -/
theorem C8_counterexample :
    invokeContract fxUnknownCtx fxS0 = .error "unknown method: stakeNode" := by
  decide

/-- Claim C8 (amended): the recognized method set is exactly
stakeWithGmSign, getNodeInfo, getContractStats, submitChallenge,
updateReputation, slashNode, requestWithdrawal, addValidator,
pauseContract, resumeContract, submitThreatReport, verifyThreatReport,
getThreatReport, getGlobalThreatList; each name routes to its handler,
a missing or empty `method` argument is the error "method is
required", and any other name yields "unknown method: <name>" with no
state change (the result is an error, which the host discards
atomically). -/
theorem C8_amended_dispatch (c : Ctx) (s : ChainState) (m : String)
    (hm : (lookupA c.args "method").getD "" = m) :
    (m = "" → invokeContract c s = .error "method is required") ∧
    (m = "stakeWithGmSign" → invokeContract c s = stakeWithGmSign c s) ∧
    (m = "getNodeInfo" → invokeContract c s = getNodeInfo c s) ∧
    (m = "getContractStats" → invokeContract c s = getContractStats c s) ∧
    (m = "submitChallenge" → invokeContract c s = submitChallenge c s) ∧
    (m = "updateReputation" → invokeContract c s = updateReputation c s) ∧
    (m = "slashNode" → invokeContract c s = slashNode c s) ∧
    (m = "requestWithdrawal" → invokeContract c s = requestWithdrawal c s) ∧
    (m = "addValidator" → invokeContract c s = addValidator c s) ∧
    (m = "pauseContract" → invokeContract c s = pauseContract c s) ∧
    (m = "resumeContract" → invokeContract c s = resumeContract c s) ∧
    (m = "submitThreatReport" → invokeContract c s = submitThreatReport c s) ∧
    (m = "verifyThreatReport" → invokeContract c s = verifyThreatReport c s) ∧
    (m = "getThreatReport" → invokeContract c s = getThreatReport c s) ∧
    (m = "getGlobalThreatList" → invokeContract c s = getGlobalThreatList c s) ∧
    (m ∉ ["", "stakeWithGmSign", "getNodeInfo", "getContractStats", "submitChallenge", "updateReputation", "slashNode", "requestWithdrawal", "addValidator", "pauseContract", "resumeContract", "submitThreatReport", "verifyThreatReport", "getThreatReport", "getGlobalThreatList"] →
      invokeContract c s = .error ("unknown method: " ++ m)) := by
  unfold invokeContract
  dsimp only
  rw [hm]
  refine ⟨?_, ?_, ?_, ?_, ?_, ?_, ?_, ?_, ?_, ?_, ?_, ?_, ?_, ?_, ?_, ?_⟩
  · intro h
    subst h
    rfl
  · intro h
    subst h
    rfl
  · intro h
    subst h
    rfl
  · intro h
    subst h
    rfl
  · intro h
    subst h
    rfl
  · intro h
    subst h
    rfl
  · intro h
    subst h
    rfl
  · intro h
    subst h
    rfl
  · intro h
    subst h
    rfl
  · intro h
    subst h
    rfl
  · intro h
    subst h
    rfl
  · intro h
    subst h
    rfl
  · intro h
    subst h
    rfl
  · intro h
    subst h
    rfl
  · intro h
    subst h
    rfl
  · intro hnot
    have g0 : ¬ m = "" := fun h => hnot (by rw [h]; decide)
    have g1 : ¬ m = "stakeWithGmSign" := fun h => hnot (by rw [h]; decide)
    have g2 : ¬ m = "getNodeInfo" := fun h => hnot (by rw [h]; decide)
    have g3 : ¬ m = "getContractStats" := fun h => hnot (by rw [h]; decide)
    have g4 : ¬ m = "submitChallenge" := fun h => hnot (by rw [h]; decide)
    have g5 : ¬ m = "updateReputation" := fun h => hnot (by rw [h]; decide)
    have g6 : ¬ m = "slashNode" := fun h => hnot (by rw [h]; decide)
    have g7 : ¬ m = "requestWithdrawal" := fun h => hnot (by rw [h]; decide)
    have g8 : ¬ m = "addValidator" := fun h => hnot (by rw [h]; decide)
    have g9 : ¬ m = "pauseContract" := fun h => hnot (by rw [h]; decide)
    have g10 : ¬ m = "resumeContract" := fun h => hnot (by rw [h]; decide)
    have g11 : ¬ m = "submitThreatReport" := fun h => hnot (by rw [h]; decide)
    have g12 : ¬ m = "verifyThreatReport" := fun h => hnot (by rw [h]; decide)
    have g13 : ¬ m = "getThreatReport" := fun h => hnot (by rw [h]; decide)
    have g14 : ¬ m = "getGlobalThreatList" := fun h => hnot (by rw [h]; decide)
    rw [if_neg g0, if_neg g1, if_neg g2, if_neg g3, if_neg g4, if_neg g5, if_neg g6, if_neg g7, if_neg g8, if_neg g9, if_neg g10, if_neg g11, if_neg g12, if_neg g13, if_neg g14]

/-- Witness for the amended C8: a recognized name routes to its
handler, and an unrecognized one yields the unknown-method error. -/
theorem C8_amended_dispatch_witness :
    invokeContract fxDispCtx fxS0 = slashNode fxDispCtx fxS0 ∧
    invokeContract fxUnknownCtx fxS1 = .error "unknown method: stakeNode" := by
  constructor
  · exact ((C8_amended_dispatch fxDispCtx fxS0 "slashNode" (by decide)).2.2.2.2.2.2.1) rfl
  · have h := (C8_amended_dispatch fxUnknownCtx fxS1 "stakeNode" (by decide))
    exact h.2.2.2.2.2.2.2.2.2.2.2.2.2.2.2 (by decide)

/-- Claim C9: the source swallows a failure of the secondary
global-threat-list update.  `submitThreatReportFault` is
`submitThreatReport` with the host store failing the single
`GLOBAL_THREAT_LIST_` `Put` inside `addToGlobalThreatList` (the spec's
failure model admits store errors).  A Critical report by an Active
node then still SUCCEEDS: the attestation stays written, the global
threat list stays untouched, and no error propagates — whereas the
fault-free run updates the list, so the two stores can diverge.  The
claim (and the spec) requires the failure to propagate and roll back
the attestation; the source only logs a warning. -/
theorem C9_swallowed_secondary_failure :
    (submitThreatReportFault fxThreatCtx fxRich).isOk = true ∧
    lookupA (resState (submitThreatReportFault fxThreatCtx fxRich) fxRich).attestations
      "threat_9.9.9.9_900" = some fxFaultAtt ∧
    (resState (submitThreatReportFault fxThreatCtx fxRich) fxRich).globalThreatList = none ∧
    (resState (submitThreatReport fxThreatCtx fxRich) fxRich).globalThreatList =
      some [{ ip := "9.9.9.9", level := 2, first_seen := 900, last_seen := 900,
              report_count := 1, last_updated := none }] := by
  refine ⟨by decide, by decide, by decide, by decide⟩

/-- Claim C10: for a caller owning an Active node and non-empty
cache_key and reason, `submitChallenge` performs no write at all: the
returned state is exactly the input state, and the only effects are
one `NodeChallenged` event and the success payload. -/
theorem C10_submitChallenge_frame (c : Ctx) (s : ChainState) (n : Node) (ck rs : String)
    (hn : lookupA s.nodes c.caller = some n) (hstat : n.Status = NodeStatus.Active)
    (hck : lookupA c.args "cache_key" = some ck) (hck' : ck ≠ "")
    (hrs : lookupA c.args "reason" = some rs) (hrs' : rs ≠ "") :
    submitChallenge c s = .ok
      { state := s,
        events := [{ name := "NodeChallenged",
                     data := ["challenge_" ++ ck ++ "_" ++ toString c.txTimeStamp,
                              ck, c.caller, rs, toString c.txTimeStamp] }],
        payload := "Challenge submitted successfully" } := by
  have h1 : reqArg c.args "cache_key" "cache_key is required" = .ok ck := by
    unfold reqArg
    rw [hck]
    simp [hck']
  have h2 : reqArg c.args "reason" "reason is required" = .ok rs := by
    unfold reqArg
    rw [hrs]
    simp [hrs']
  have h3 : getNodeByAddress s c.caller = .ok n := by
    unfold getNodeByAddress
    rw [hn]
  unfold submitChallenge
  simp [h1, h2, h3, hstat]

/-- Witness for C10: the Active node submits a challenge against the
rich demo state; nothing in the store changes. -/
theorem C10_submitChallenge_frame_witness :
    submitChallenge fxChalCtx fxRich = .ok
      { state := fxRich,
        events := [{ name := "NodeChallenged",
                     data := ["challenge_ck_950", "ck", "ACTIVE_NODE_ADDR1", "rsn", "950"] }],
        payload := "Challenge submitted successfully" } := by
  exact C10_submitChallenge_frame fxChalCtx fxRich fxActiveNode "ck" "rsn"
    (by decide) rfl (by decide) (by decide) (by decide) (by decide)

/-- Claim C1 counterexample: the Paused state does not gate the other
mutating handlers.  In a reachable Paused state (init, one stake,
pause), `addValidator` called by the owner succeeds and registers a
validator — it neither fails with the StateNotActive error nor leaves
the state unchanged, contradicting the claim that every mutating
handler except resumeContract fails with StateNotActive while
Paused. -/
theorem C1_counterexample :
    Reachable fxPaused ∧
    fxPaused.contractState = some "1" ∧
    (invokeContract fxAddValCtx fxPaused).isOk = true ∧
    lookupA (resState (invokeContract fxAddValCtx fxPaused) fxPaused).validators
      "VALIDATOR_ADDR_1" = some "1" ∧
    lookupA fxPaused.validators "VALIDATOR_ADDR_1" = none := by
  refine ⟨?_, by decide, by decide, by decide, by decide⟩
  have h1 : invokeContract fxStakeCtx (initContract fxInitCtx) = .ok fxOut1 := by decide
  have h2 : invokeContract fxPauseCtx fxS1 = .ok fxPausedOut := by decide
  exact Reachable.step (Reachable.step (Reachable.init fxInitCtx) h1) h2

/-- Claim C1 (amended): only `stakeWithGmSign` reads the contract
state — while Paused it fails with the StateNotActive error (and,
being an error, performs no state change); none of the other mutating
handlers checks the contract state, so each of them can succeed in a
Paused state subject only to its own capability and argument checks
(demonstrated below on the Paused state `fxRich`, whose contractState
is "1"); and `resumeContract` invoked by governance succeeds in any
state, writing state Active. -/
theorem C1_amended_state_gate :
    (∀ (c : Ctx) (s : ChainState), s.contractState = some "1" →
       stakeWithGmSign c s = .error "contract is not active, current state: 1") ∧
    (submitChallenge fxChalCtx fxRich).isOk = true ∧
    (updateReputation fxUpdCtx fxRich).isOk = true ∧
    (slashNode fxSlashCtx fxRich).isOk = true ∧
    (requestWithdrawal fxWdrCtx fxRich).isOk = true ∧
    (addValidator fxAddVal2Ctx fxRich).isOk = true ∧
    (pauseContract fxPause2Ctx fxRich).isOk = true ∧
    (submitThreatReport fxThreatCtx fxRich).isOk = true ∧
    (verifyThreatReport (fxVerifyCtx "VALIDATOR_ADDR_1" 600) fxRich).isOk = true ∧
    (∀ (c : Ctx) (s : ChainState) (g : String), s.governance = some g → c.caller = g →
       resumeContract c s = .ok
         { state := { s with contractState := some "0" },
           events := [{ name := "ContractResumed", data := [toString c.txTimeStamp] }],
           payload := "Contract resumed successfully" }) := by
  refine ⟨?_, by decide, by decide, by decide, by decide, by decide, by decide,
    by decide, by decide, ?_⟩
  · intro c s h
    have hcs : getContractState s = .ok 1 := by
      unfold getContractState
      rw [h]
      rfl
    unfold stakeWithGmSign
    rw [hcs]
    rfl
  · intro c s g hg hc
    subst hc
    unfold resumeContract onlyGovernance
    rw [hg]
    simp

/-- Witness for the amended C1: on the Paused demo state, the stake
handler returns the StateNotActive error and governance's resume
succeeds. -/
theorem C1_amended_state_gate_witness :
    stakeWithGmSign fxStakeCtx fxRich = .error "contract is not active, current state: 1" ∧
    resumeContract fxResumeCtx fxRich = .ok
      { state := { fxRich with contractState := some "0" },
        events := [{ name := "ContractResumed", data := ["970"] }],
        payload := "Contract resumed successfully" } := by
  constructor
  · exact C1_amended_state_gate.1 fxStakeCtx fxRich (by decide)
  · have h := C1_amended_state_gate.2.2.2.2.2.2.2.2.2 fxResumeCtx fxRich
      "GOV_ADDR_00000001" (by decide) rfl
    simpa using h

/-- Claim C3 counterexample: `ThreatAttestation` in the source has no
verification-count and no verified field, and a successful
`verifyThreatReport` does not modify the stored attestation at all:
after three distinct validators verify the demo report, the
attestation store is bit-for-bit the original (so no count was
incremented and no flag was set at 3), while the reporter was indeed
credited +15 reputation and verified-threats 3.  This refutes the
claimed per-call count increment and the verified-at-3 flag. -/
theorem C3_counterexample :
    (invokeContract (fxVerifyCtx "VALIDATOR_ADDR_1" 600) fxRich).isOk = true ∧
    (invokeContract (fxVerifyCtx "VALIDATOR_ADDR_2" 601) fxVer1).isOk = true ∧
    (invokeContract (fxVerifyCtx "VALIDATOR_ADDR_3" 602) fxVer2).isOk = true ∧
    fxVer3.attestations = fxRich.attestations ∧
    lookupA fxRich.attestations "rpt1" = some fxAtt ∧
    (lookupA fxVer3.nodes "AGENT_ADDR_0000001").map
      (fun n => (n.ReputationScore, n.VerifiedThreats)) = some (115, 3) := by
  refine ⟨by decide, by decide, by decide, by decide, by decide, by decide⟩

/-- Claim C3 (amended): a successful `verifyThreatReport` call by a
validator writes the per-(report, verifier) stamp, leaves the stored
attestation untouched (there is no verification-count or verified
field to update), and credits the reporter's node +5 reputation
(uint64, unclamped) and +1 verified-threats; after three distinct
validators the reporter has thus gained 15 reputation and 3
verified-threats while the attestation is unchanged. -/
theorem C3_amended_per_call (c : Ctx) (s : ChainState) (id : String)
    (att : ThreatAttestation) (n : Node)
    (hv : onlyValidator s c.caller = .ok ())
    (hid : reqArg c.args "report_id" "report_id is required" = .ok id)
    (hatt : lookupA s.attestations id = some att)
    (hn : lookupA s.nodes att.AgentID = some n) :
    verifyThreatReport c s = .ok
      { state := saveNode
          { s with verifStamps := putA (id ++ "_" ++ c.caller) (verifStampOf c id) s.verifStamps }
          { n with ReputationScore := u64add n.ReputationScore 5,
                   VerifiedThreats := u64add n.VerifiedThreats 1 },
        events := [{ name := "ThreatVerified",
                     data := [id, c.caller, "true", toString c.txTimeStamp] }],
        payload := "Threat verification recorded" } := by
  have hn' : getNodeByAddress
      { s with verifStamps := putA (id ++ "_" ++ c.caller) { verifier := c.caller, verified := true, timestamp := c.txTimeStamp, report_id := id } s.verifStamps }
      att.AgentID = .ok n := by
    unfold getNodeByAddress
    dsimp only
    rw [hn]
  unfold verifyThreatReport
  rw [hv, hid]
  dsimp only
  rw [hatt]
  dsimp only
  rw [hn']
  rfl

/-- Witness for the amended C3: the first verification on the demo
state leaves the attestation store unchanged and credits the reporter
to 105 reputation / 1 verified threat. -/
theorem C3_amended_per_call_witness :
    (verifyThreatReport (fxVerifyCtx "VALIDATOR_ADDR_1" 600) fxRich).isOk = true ∧
    (resState (verifyThreatReport (fxVerifyCtx "VALIDATOR_ADDR_1" 600) fxRich) fxRich).attestations =
      fxRich.attestations ∧
    (lookupA (resState (verifyThreatReport (fxVerifyCtx "VALIDATOR_ADDR_1" 600) fxRich) fxRich).nodes
      "AGENT_ADDR_0000001").map (fun n => (n.ReputationScore, n.VerifiedThreats)) = some (105, 1) := by
  have h := C3_amended_per_call (fxVerifyCtx "VALIDATOR_ADDR_1" 600) fxRich "rpt1" fxAtt fxAgentNode
    (by decide) (by decide) (by decide) (by decide)
  refine ⟨?_, ?_, ?_⟩ <;> rw [h] <;> decide

/-- Claim C4 counterexample: `verifyThreatReport` is not idempotent
per (report, verifier).  The same validator verifies the same report
twice; the second call is again a success and credits the reporter a
second time (reputation 100 → 105 → 110, verified-threats 1 → 2),
so repeat calls are not no-ops for the tally and the reporter is
double-credited. -/
theorem C4_counterexample :
    (invokeContract (fxVerifyCtx "VALIDATOR_ADDR_1" 600) fxRich).isOk = true ∧
    (invokeContract (fxVerifyCtx "VALIDATOR_ADDR_1" 650) fxVer1).isOk = true ∧
    (lookupA fxVer1.nodes "AGENT_ADDR_0000001").map
      (fun n => (n.ReputationScore, n.VerifiedThreats)) = some (105, 1) ∧
    (lookupA fxVer1Rep.nodes "AGENT_ADDR_0000001").map
      (fun n => (n.ReputationScore, n.VerifiedThreats)) = some (110, 2) := by
  refine ⟨by decide, by decide, by decide, by decide⟩

/-- Claim C4 (amended): `verifyThreatReport` has no per-(report,
verifier) no-op guard: even when the caller's verification stamp for
the report is already present, a repeat call succeeds, overwrites the
stamp, and credits the reporter another +5 reputation and +1
verified-threats. -/
theorem C4_amended_no_guard (c : Ctx) (s : ChainState) (id : String)
    (att : ThreatAttestation) (n : Node) (st : VerifStamp)
    (_hstamp : lookupA s.verifStamps (id ++ "_" ++ c.caller) = some st)
    (hv : onlyValidator s c.caller = .ok ())
    (hid : reqArg c.args "report_id" "report_id is required" = .ok id)
    (hatt : lookupA s.attestations id = some att)
    (hn : lookupA s.nodes att.AgentID = some n) :
    verifyThreatReport c s = .ok
      { state := saveNode
          { s with verifStamps := putA (id ++ "_" ++ c.caller) (verifStampOf c id) s.verifStamps }
          { n with ReputationScore := u64add n.ReputationScore 5,
                   VerifiedThreats := u64add n.VerifiedThreats 1 },
        events := [{ name := "ThreatVerified",
                     data := [id, c.caller, "true", toString c.txTimeStamp] }],
        payload := "Threat verification recorded" } := by
  have hn' : getNodeByAddress
      { s with verifStamps := putA (id ++ "_" ++ c.caller) { verifier := c.caller, verified := true, timestamp := c.txTimeStamp, report_id := id } s.verifStamps }
      att.AgentID = .ok n := by
    unfold getNodeByAddress
    dsimp only
    rw [hn]
  unfold verifyThreatReport
  rw [hv, hid]
  dsimp only
  rw [hatt]
  dsimp only
  rw [hn']
  rfl

/-- Witness for the amended C4: on the state after the first
verification the stamp exists, and the repeat call by the same
validator still succeeds and credits again (to 110 / 2). -/
theorem C4_amended_no_guard_witness :
    lookupA fxVer1.verifStamps "rpt1_VALIDATOR_ADDR_1" =
      some { verifier := "VALIDATOR_ADDR_1", verified := true, timestamp := 600,
             report_id := "rpt1" } ∧
    (lookupA (resState (verifyThreatReport (fxVerifyCtx "VALIDATOR_ADDR_1" 650) fxVer1) fxVer1).nodes
      "AGENT_ADDR_0000001").map (fun n => (n.ReputationScore, n.VerifiedThreats)) = some (110, 2) := by
  have h := C4_amended_no_guard (fxVerifyCtx "VALIDATOR_ADDR_1" 650) fxVer1 "rpt1" fxAtt
    { fxAgentNode with ReputationScore := 105, VerifiedThreats := 1 }
    { verifier := "VALIDATOR_ADDR_1", verified := true, timestamp := 600, report_id := "rpt1" }
    (by decide) (by decide) (by decide) (by decide) (by decide)
  refine ⟨by decide, ?_⟩
  rw [h]
  decide

/-- Claim C6: (a) in every reachable state the consensus tier list has
at most 21 members; (b) a staking invocation with node_type 0 (the
concrete capped attempt `fxCapCtx`, amount 10000, fresh node-id and
nonce) against any Active-state store whose consensus list already
holds 21 addresses fails with the "max consensus nodes reached" error
(surfaced by the handler as "failed to add to consensus list: max
consensus nodes reached: 21"); being an error, the invocation is
rolled back by the host, so no node record and no list entry is
created. -/
theorem C6_consensus_cap :
    (∀ s : ChainState, Reachable s → ∀ l, s.consensus = some l → l.length ≤ 21) ∧
    (∀ (s : ChainState) (l : List String),
       s.contractState = some "0" →
       s.consensus = some l → l.length = 21 →
       lookupA s.idToAddr fxCapParams.nodeId = none →
       ¬ isNonceUsed s fxCapRk = true →
       stakeWithGmSign fxCapCtx s =
         .error "failed to add to consensus list: max consensus nodes reached: 21") := by
  constructor
  · intro s hs l hl
    exact ((reachable_inv hs).2.2.1 l hl).1
  · intro s l h0 hc hlen hid hn
    have hcs : getContractState s = .ok 0 := by
      unfold getContractState
      rw [h0]
      rfl
    have hadd : addNodeToConsensusList (saveNode (setNonceUsed s fxCapRk) fxCapNode) fxCapCtx.caller =
        .error "max consensus nodes reached: 21" := by
      unfold addNodeToConsensusList
      show (match s.consensus with
            | none => (.error ("failed to get consensus nodes: " ++ keyNotFoundErr) : Except String ChainState)
            | some consensusNodes =>
              if consensusNodes.length ≥ 21 then .error "max consensus nodes reached: 21"
              else if fxCapCtx.caller ∈ consensusNodes then
                .error ("node already in consensus list: " ++ fxCapCtx.caller)
              else .ok { saveNode (setNonceUsed s fxCapRk) fxCapNode with
                          consensus := some (consensusNodes ++ [fxCapCtx.caller]) }) =
        .error "max consensus nodes reached: 21"
      rw [hc]
      dsimp only
      rw [if_pos (by omega : l.length ≥ 21)]
    have hchecked : stakeChecked fxCapCtx s fxCapParams =
        .error "failed to add to consensus list: max consensus nodes reached: 21" := by
      unfold stakeChecked
      dsimp only
      show (if (match lookupA s.idToAddr fxCapParams.nodeId with
                | some existingAddr => existingAddr != ""
                | none => false) = true
            then (.error ("node ID already exists: " ++ fxCapParams.nodeId) : HRes)
            else stakeFinish fxCapCtx fxCapParams.nodeId fxCapParams.amount fxCapNode
                   (saveNode (setNonceUsed s fxCapRk) fxCapNode) fxCapParams.nodeType) =
        .error "failed to add to consensus list: max consensus nodes reached: 21"
      rw [hid]
      dsimp only
      unfold stakeFinish
      rw [if_pos (by decide : fxCapParams.nodeType = 0), hadd]
      rfl
    unfold stakeWithGmSign
    rw [hcs]
    show (if isNonceUsed s fxCapRk = true then (.error "nonce already used" : HRes)
          else stakeChecked fxCapCtx s fxCapParams) =
      .error "failed to add to consensus list: max consensus nodes reached: 21"
    rw [if_neg hn]
    exact hchecked

/-- Witness for C6: (a) applied to the reachable one-stake state whose
consensus list has one member; (b) applied to the demo store whose
consensus list holds 21 addresses. -/
theorem C6_consensus_cap_witness :
    fxS1.consensus = some ["STAKER_ADDR_00001"] ∧
    (["STAKER_ADDR_00001"] : List String).length ≤ 21 ∧
    stakeWithGmSign fxCapCtx fxFull21 =
      .error "failed to add to consensus list: max consensus nodes reached: 21" := by
  refine ⟨by decide, ?_, ?_⟩
  · have hr : Reachable fxS1 :=
      Reachable.step (Reachable.init fxInitCtx)
        (by decide : invokeContract fxStakeCtx (initContract fxInitCtx) = .ok fxOut1)
    exact C6_consensus_cap.1 fxS1 hr _ (by decide)
  · exact C6_consensus_cap.2 fxFull21 fxFullList (by decide) (by decide) (by decide)
      (by decide) (by decide)
